import Mathlib


/-!
# Verification of the lap-tracker decoding and timing core

This development shallowly embeds the decoding, normalization and lap/sector
timing engine of the lap-tracker repository and proves (or refutes) the
testable properties stated in its specification.

Modelling conventions, used uniformly below:

* JavaScript double-precision numbers are idealized as exact rationals `ℚ`.
  Decimal literals (`3.6`, `2.23694`, `0.04`, `1e-10`, …) are taken at their
  exact decimal value.  `Math.PI` is embedded as `piQ`, the exact rational
  value of the IEEE-754 double closest to π (the value the source actually
  computes with).
* `NaN` is modelled as `Option.none` wherever a parse can fail
  (`parseFloat`/`parseInt` return `Option`), and JS comparisons against a
  possibly-`NaN` value are `false` on `none`, as in IEEE arithmetic.
* `Infinity`-seeded running minima are modelled with an `Option` accumulator
  (`none` = the `Infinity` seed).
* `Math.cos` and the haversine great-circle distance are transcendental and
  are therefore taken as explicit function parameters (`cosv`, `hav`) of the
  embedded functions that call them.  Every universal theorem below is proved
  for all values of these parameters, so in particular for the real cosine
  and haversine.  Concrete evaluations instantiate `cosv` only at argument 0,
  where IEEE-754 `cos` returns exactly 1, so the instantiated run agrees with
  the source's run on the same input.
* Structures omit fields that no property refers to and that do not feed back
  into any modelled field (the open-ended auxiliary field map `extraFields`,
  display `fieldMappings`, the `bounds` box and the session `startDate`).
  Source passes that touch only those fields (G-force derivation and its
  smoothing) are omitted with a note at the corresponding place.
-/

/-- Exact rational value of the IEEE-754 double `Math.PI`
(`3.141592653589793115997963468544185161590576171875 = 884279719003555 / 2^48`). -/
def piQ : ℚ := 884279719003555 / 281474976710656

/-! ## Geometry utilities (source: `src/lib/lapCalculation.ts`) -/

/-- A point in the local projected plane. -/
structure Point where
  x : ℚ
  y : ℚ
deriving DecidableEq, Repr

/-- Cross product of vectors OA and OB
(source: `cross` in `lapCalculation.ts`). -/
def cross (o a b : Point) : ℚ :=
  (a.x - o.x) * (b.y - o.y) - (a.y - o.y) * (b.x - o.x)

/-- Which side of the line AB the point P is on: positive = left,
negative = right, 0 = on the line (source: `sideOfLine`). -/
def sideOfLine (p a b : Point) : ℚ :=
  cross a b p

/-- Equirectangular projection of (lat, lon) to local planar coordinates,
centered at (centerLat, centerLon); `cosv` stands for `Math.cos`
(source: `projectToPlane`). -/
def projectToPlane (cosv : ℚ → ℚ) (lat lon centerLat centerLon : ℚ) : Point :=
  { x := (lon - centerLon) * piQ / 180 * 6371000 * cosv (centerLat * piQ / 180)
  , y := (lat - centerLat) * piQ / 180 * 6371000 }

/-- Line segment intersection: the fraction along the path segment p1→p2 at
which it crosses the timing line a→b, or `none`
(source: `segmentIntersection`). -/
def segmentIntersection (p1 p2 a b : Point) : Option ℚ :=
  let d1 := sideOfLine p1 a b
  let d2 := sideOfLine p2 a b
  -- Both points on same side = no crossing
  if (d1 > 0 ∧ d2 > 0) ∨ (d1 < 0 ∧ d2 < 0) then none
  else
    -- Check if timing line crosses the path segment
    let d3 := sideOfLine a p1 p2
    let d4 := sideOfLine b p1 p2
    if (d3 > 0 ∧ d4 > 0) ∨ (d3 < 0 ∧ d4 < 0) then none
    else
      -- Collinear case - ignore (treat as no crossing for lap timing)
      if d1 = 0 ∧ d2 = 0 then none
      else
        let denom := d1 - d2
        if |denom| < 1e-10 then none
        else some (d1 / denom)

/-! ## Racing data model (source: `src/types/racing.ts`) -/

/-- One canonical GPS sample as consumed by the timing engine and produced by
the UBX/VBO/Alfano/AiM decoders.  `rawNmea` and the open-ended `extraFields`
map are omitted (see the module header). -/
structure GpsSample where
  t : ℚ
  lat : ℚ
  lon : ℚ
  speedMps : ℚ
  speedMph : ℚ
  speedKph : ℚ
  heading : Option ℚ := none
deriving DecidableEq, Repr, Inhabited

/-- A geographic point (decimal degrees). -/
structure GeoPoint where
  lat : ℚ
  lon : ℚ
deriving DecidableEq, Repr

/-- A sector timing line (source: `SectorLine`). -/
structure SectorLine where
  a : GeoPoint
  b : GeoPoint
deriving DecidableEq, Repr

/-- A configured course: mandatory start/finish line, optional sector lines
(source: `Course`; the display name and UI flag are omitted). -/
structure Course where
  startFinishA : GeoPoint
  startFinishB : GeoPoint
  sector2 : Option SectorLine := none
  sector3 : Option SectorLine := none
deriving DecidableEq, Repr

/-- Whether the course has both sector lines (source: `courseHasSectors`). -/
def courseHasSectors (course : Course) : Bool :=
  course.sector2.isSome && course.sector3.isSome

/-- A start/finish crossing in the legacy format used for lap assembly
(source: `LapCrossing`). -/
structure LapCrossing where
  sampleIndex : ℕ
  crossingTime : ℚ
  fraction : ℚ
deriving DecidableEq, Repr

/-- Per-lap sector durations (source: `SectorTimes`). -/
structure SectorTimes where
  s1 : Option ℚ
  s2 : Option ℚ
  s3 : Option ℚ
deriving DecidableEq, Repr

/-- A computed lap (source: `Lap`). -/
structure Lap where
  lapNumber : ℕ
  startTime : ℚ
  endTime : ℚ
  lapTimeMs : ℚ
  maxSpeedMph : ℚ
  maxSpeedKph : ℚ
  minSpeedMph : ℚ
  minSpeedKph : ℚ
  startIndex : ℕ
  endIndex : ℕ
  sectors : Option SectorTimes
deriving DecidableEq, Repr

/-! ## Crossing detection (source: `src/lib/lapCalculation.ts`) -/

/-- Which timing line a crossing belongs to. -/
inductive LineType where
  | sf
  | s2
  | s3
deriving DecidableEq, Repr

/-- A detected line crossing (source: `LineCrossing`). -/
structure LineCrossing where
  lineType : LineType
  crossingTime : ℚ
  sampleIndex : ℕ
  fraction : ℚ
  direction : ℤ
deriving DecidableEq, Repr

/-- Debounce interval for start/finish crossings
(source: `MIN_CROSSING_INTERVAL_MS`). -/
def MIN_CROSSING_INTERVAL_MS : ℚ := 5000

/-- Debounce interval for sector-line crossings
(source: `MIN_SECTOR_CROSSING_INTERVAL_MS`). -/
def MIN_SECTOR_CROSSING_INTERVAL_MS : ℚ := 1000

/-- The scan loop of `detectLineCrossings`: walks consecutive sample pairs,
keeping the last accepted crossing time/direction; crossings are accumulated
in reverse. -/
def detectLoop (cosv : ℚ → ℚ) (lineA lineB : Point) (centerLat centerLon : ℚ)
    (lineType : LineType) (minInterval : ℚ) :
    List GpsSample → ℕ → ℚ → ℤ → List LineCrossing → List LineCrossing
  | s1 :: s2 :: rest, i, lastCrossingTime, lastCrossingDirection, acc =>
    let p1 := projectToPlane cosv s1.lat s1.lon centerLat centerLon
    let p2 := projectToPlane cosv s2.lat s2.lon centerLat centerLon
    let side1 := sideOfLine p1 lineA lineB
    let side2 := sideOfLine p2 lineA lineB
    match segmentIntersection p1 p2 lineA lineB with
    | some fraction =>
      if 0 ≤ fraction ∧ fraction ≤ 1 then
        let crossingTime := s1.t + fraction * (s2.t - s1.t)
        let crossingDirection : ℤ := if side2 > side1 then 1 else -1
        if crossingTime - lastCrossingTime ≥ minInterval then
          -- For the first crossing accept any direction; afterwards require
          -- the same direction (consistent lap direction)
          if acc = [] ∨ lastCrossingDirection = 0 ∨
              crossingDirection = lastCrossingDirection then
            detectLoop cosv lineA lineB centerLat centerLon lineType minInterval
              (s2 :: rest) (i + 1) crossingTime crossingDirection
              ({ lineType := lineType, crossingTime := crossingTime
               , sampleIndex := i, fraction := fraction
               , direction := crossingDirection } :: acc)
          else
            detectLoop cosv lineA lineB centerLat centerLon lineType minInterval
              (s2 :: rest) (i + 1) lastCrossingTime lastCrossingDirection acc
        else
          detectLoop cosv lineA lineB centerLat centerLon lineType minInterval
            (s2 :: rest) (i + 1) lastCrossingTime lastCrossingDirection acc
      else
        detectLoop cosv lineA lineB centerLat centerLon lineType minInterval
          (s2 :: rest) (i + 1) lastCrossingTime lastCrossingDirection acc
    | none =>
      detectLoop cosv lineA lineB centerLat centerLon lineType minInterval
        (s2 :: rest) (i + 1) lastCrossingTime lastCrossingDirection acc
  | _, _, _, _, acc => acc.reverse

/-- Detect all accepted crossings of one timing line
(source: `detectLineCrossings`). -/
def detectLineCrossings (cosv : ℚ → ℚ) (samples : List GpsSample)
    (lineA lineB : Point) (centerLat centerLon : ℚ)
    (lineType : LineType) (minInterval : ℚ) : List LineCrossing :=
  detectLoop cosv lineA lineB centerLat centerLon lineType minInterval
    samples 0 (-minInterval) 0 []

/-- Project a sector line into the local plane
(source: `projectSectorLine`). -/
def projectSectorLine (cosv : ℚ → ℚ) (sectorLine : SectorLine)
    (centerLat centerLon : ℚ) : Point × Point :=
  (projectToPlane cosv sectorLine.a.lat sectorLine.a.lon centerLat centerLon,
   projectToPlane cosv sectorLine.b.lat sectorLine.b.lon centerLat centerLon)

/-! ## Lap assembly (source: `calculateLaps` in `src/lib/lapCalculation.ts`) -/

/-- Low-speed threshold for glitch runs
(source: `MIN_SPEED_THRESHOLD_MPH`). -/
def MIN_SPEED_THRESHOLD_MPH : ℚ := 1.0

/-- Maximum length of a low-speed run treated as a glitch
(source: `MAX_GLITCH_SAMPLES`). -/
def MAX_GLITCH_SAMPLES : ℕ := 3

/-- The in-lap scan that collects indices of short low-speed runs
(first loop of the glitch pass in `calculateLaps`); `js` is the index range
`start.sampleIndex ≤ j ≤ min end.sampleIndex (samples.length - 1)`. -/
def glitchScan (samples : List GpsSample) :
    List ℕ → Option ℕ → List ℕ → Option ℕ × List ℕ
  | [], runStart, acc => (runStart, acc)
  | j :: js, runStart, acc =>
    let isLowSpeed := (samples.getD j default).speedMph < MIN_SPEED_THRESHOLD_MPH
    match runStart with
    | none =>
      if isLowSpeed then glitchScan samples js (some j) acc
      else glitchScan samples js none acc
    | some r =>
      if isLowSpeed then glitchScan samples js (some r) acc
      else
        let runLength := j - r
        if runLength ≤ MAX_GLITCH_SAMPLES then
          glitchScan samples js none (acc ++ List.range' r (j - r))
        else glitchScan samples js none acc

/-- The glitch index set for one lap: the scan above plus the trailing-run
handling after the loop (source: the `runStart !== -1` block). -/
def glitchIndicesFor (samples : List GpsSample) (startIdx endIdx : ℕ) :
    List ℕ :=
  let lastJ := min endIdx (samples.length - 1)
  let js := List.range' startIdx (lastJ + 1 - startIdx)
  match glitchScan samples js none [] with
  | (none, acc) => acc
  | (some r, acc) =>
    let runLength := endIdx + 1 - r
    if runLength ≤ MAX_GLITCH_SAMPLES then
      acc ++ List.range' r (lastJ + 1 - r)
    else acc

/-- State of the per-lap max/min speed scan: running maximum (mph, kph) and
running minimum (`none` = the `Infinity` seed). -/
structure SpeedScanState where
  maxSpeedMph : ℚ
  maxSpeedKph : ℚ
  minSpeed : Option (ℚ × ℚ)
deriving DecidableEq, Repr

/-- The per-lap max/min speed loop (second loop of the glitch pass in
`calculateLaps`): the maximum scan sees every sample, the minimum scan skips
glitch indices. -/
def speedScan (samples : List GpsSample) (glitch : List ℕ) :
    List ℕ → SpeedScanState → SpeedScanState
  | [], st => st
  | j :: js, st =>
    let sample := samples.getD j default
    let st1 :=
      if sample.speedMph > st.maxSpeedMph then
        { st with maxSpeedMph := sample.speedMph
                , maxSpeedKph := sample.speedKph }
      else st
    let belowMin : Bool :=
      match st1.minSpeed with
      | none => true
      | some m => sample.speedMph < m.1
    let st2 :=
      if j ∉ glitch ∧ belowMin = true then
        { st1 with minSpeed := some (sample.speedMph, sample.speedKph) }
      else st1
    speedScan samples glitch js st2

/-- The per-lap sector-time computation of `calculateLaps` (the
`if (hasSectors)` block in the lap loop). -/
def lapSectors (hasSectors : Bool)
    (sector2Crossings sector3Crossings : List LineCrossing)
    (start finish : LapCrossing) : Option SectorTimes :=
  if hasSectors then
    -- Find the sector-2 crossing inside this lap
    let s2Crossing := sector2Crossings.find? fun c =>
      start.crossingTime < c.crossingTime ∧ c.crossingTime < finish.crossingTime
    -- Find the sector-3 crossing inside this lap (after sector 2 if found)
    let s3Crossing := sector3Crossings.find? fun c =>
      ((s2Crossing.map (·.crossingTime)).getD start.crossingTime) < c.crossingTime ∧
        c.crossingTime < finish.crossingTime
    match s2Crossing, s3Crossing with
    | some c2, some c3 =>
      -- Only compute all sector times if crossings are in correct order
      if c2.crossingTime < c3.crossingTime then
        some { s1 := some (c2.crossingTime - start.crossingTime)
             , s2 := some (c3.crossingTime - c2.crossingTime)
             , s3 := some (finish.crossingTime - c3.crossingTime) }
      else
        some { s1 := none, s2 := none, s3 := none }
    | some c2, none =>
      -- Only S1 is valid
      some { s1 := some (c2.crossingTime - start.crossingTime)
           , s2 := none, s3 := none }
    | none, _ =>
      -- S3 cannot be computed alone / no sector crossings found
      some { s1 := none, s2 := none, s3 := none }
  else none

/-- Build one lap between two consecutive accepted start/finish crossings
(body of the lap loop in `calculateLaps`; `i` is the loop index, so the lap
number is `i + 1`). -/
def mkLap (samples : List GpsSample) (hasSectors : Bool)
    (sector2Crossings sector3Crossings : List LineCrossing)
    (i : ℕ) (start finish : LapCrossing) : Lap :=
  let lapTimeMs := finish.crossingTime - start.crossingTime
  let lastJ := min finish.sampleIndex (samples.length - 1)
  let js := List.range' start.sampleIndex (lastJ + 1 - start.sampleIndex)
  let glitch := glitchIndicesFor samples start.sampleIndex finish.sampleIndex
  let scan := speedScan samples glitch js
    { maxSpeedMph := 0, maxSpeedKph := 0, minSpeed := none }
  { lapNumber := i + 1
  , startTime := start.crossingTime
  , endTime := finish.crossingTime
  , lapTimeMs := lapTimeMs
  , maxSpeedMph := scan.maxSpeedMph
  , maxSpeedKph := scan.maxSpeedKph
  , minSpeedMph := (scan.minSpeed.map (·.1)).getD 0
  , minSpeedKph := (scan.minSpeed.map (·.2)).getD 0
  , startIndex := start.sampleIndex
  , endIndex := finish.sampleIndex
  , sectors := lapSectors hasSectors sector2Crossings sector3Crossings start finish }

/-- The lap loop of `calculateLaps`: one lap per pair of consecutive
start/finish crossings. -/
def lapsFromCrossings (samples : List GpsSample) (hasSectors : Bool)
    (sector2Crossings sector3Crossings : List LineCrossing) :
    ℕ → List LapCrossing → List Lap
  | i, start :: finish :: rest =>
    mkLap samples hasSectors sector2Crossings sector3Crossings i start finish ::
      lapsFromCrossings samples hasSectors sector2Crossings sector3Crossings
        (i + 1) (finish :: rest)
  | _, _ => []

/-- Compute all laps for a sample stream and a configured course
(source: `calculateLaps`).  `cosv` stands for `Math.cos`. -/
def calculateLaps (cosv : ℚ → ℚ) (samples : List GpsSample) (course : Course) :
    List Lap :=
  if samples.length < 2 then [] else
  let centerLat := (course.startFinishA.lat + course.startFinishB.lat) / 2
  let centerLon := (course.startFinishA.lon + course.startFinishB.lon) / 2
  let sfA := projectToPlane cosv course.startFinishA.lat course.startFinishA.lon
    centerLat centerLon
  let sfB := projectToPlane cosv course.startFinishB.lat course.startFinishB.lon
    centerLat centerLon
  let sfCrossings := detectLineCrossings cosv samples sfA sfB centerLat centerLon
    LineType.sf MIN_CROSSING_INTERVAL_MS
  let crossings : List LapCrossing := sfCrossings.map fun c =>
    { sampleIndex := c.sampleIndex, crossingTime := c.crossingTime
    , fraction := c.fraction }
  let hasSectors := courseHasSectors course
  let sectorCrossings : List LineCrossing × List LineCrossing :=
    match course.sector2, course.sector3 with
    | some sec2, some sec3 =>
      let s2Line := projectSectorLine cosv sec2 centerLat centerLon
      let s3Line := projectSectorLine cosv sec3 centerLat centerLon
      (detectLineCrossings cosv samples s2Line.1 s2Line.2 centerLat centerLon
        LineType.s2 MIN_SECTOR_CROSSING_INTERVAL_MS,
       detectLineCrossings cosv samples s3Line.1 s3Line.2 centerLat centerLon
        LineType.s3 MIN_SECTOR_CROSSING_INTERVAL_MS)
    | _, _ => ([], [])
  lapsFromCrossings samples hasSectors sectorCrossings.1 sectorCrossings.2
    0 crossings



/-! ## Optimal lap (source: `calculateOptimalLap` in `lapCalculation.ts`) -/

/-- Result of the optimal-lap computation (source: `OptimalLapResult`). -/
structure OptimalLapResult where
  optimalTimeMs : ℚ
  bestS1 : ℚ
  bestS2 : ℚ
  bestS3 : ℚ
  /-- fastest lap - optimal (should be >= 0) -/
  deltaToFastest : ℚ
deriving DecidableEq, Repr

/-- Whether a lap carries all three sector times
(source: the filter predicate in `calculateOptimalLap`). -/
def lapHasAllSectors (lap : Lap) : Bool :=
  match lap.sectors with
  | none => false
  | some st => st.s1.isSome && st.s2.isSome && st.s3.isSome

/-- Running minimum over a list, seeded with a first value: the JS
`Infinity`-seeded strict-less update loop restricted to a nonempty list. -/
def foldMinQ (x : ℚ) (xs : List ℚ) : ℚ :=
  xs.foldl (fun best v => if v < best then v else best) x

/-- A lap's recorded sector-1 time (0 if unset; only read on laps where it
is set). -/
def s1Of (l : Lap) : ℚ := (l.sectors.bind (fun st => st.s1)).getD 0

/-- A lap's recorded sector-2 time (0 if unset). -/
def s2Of (l : Lap) : ℚ := (l.sectors.bind (fun st => st.s2)).getD 0

/-- A lap's recorded sector-3 time (0 if unset). -/
def s3Of (l : Lap) : ℚ := (l.sectors.bind (fun st => st.s3)).getD 0

/-- The fastest actual lap time over all laps:
`Math.min(...laps.map(l => l.lapTimeMs))` for a nonempty lap list (0 on the
empty list, which the caller rules out). -/
def fastestLapMsOf (laps : List Lap) : ℚ :=
  match laps with
  | [] => 0
  | t0 :: ts => foldMinQ t0.lapTimeMs (ts.map (·.lapTimeMs))

/-- Optimal lap from best individually-observed sectors
(source: `calculateOptimalLap`).  The `Infinity` seeds of the JS minima are
modelled by seeding each fold with the head of the (nonempty) filtered
list. -/
def calculateOptimalLap (laps : List Lap) : Option OptimalLapResult :=
  -- Filter laps that have all three valid sector times
  match laps.filter lapHasAllSectors with
  | [] => none
  | l0 :: ls =>
    let bestS1 := foldMinQ (s1Of l0) (ls.map s1Of)
    let bestS2 := foldMinQ (s2Of l0) (ls.map s2Of)
    let bestS3 := foldMinQ (s3Of l0) (ls.map s3Of)
    let optimalTimeMs := bestS1 + bestS2 + bestS3
    -- Find fastest actual lap (over all laps, not only full-sector ones)
    some { optimalTimeMs := optimalTimeMs
         , bestS1 := bestS1, bestS2 := bestS2, bestS3 := bestS3
         , deltaToFastest := fastestLapMsOf laps - optimalTimeMs }

/-! ## Claim-level predicates and concrete inputs for the timing engine -/

/-- The sector-population shape claimed by the specification: `sectors` is
either absent or fully populated (all of s1, s2, s3 defined), and populated
only when the course has both sector lines. -/
def sectorsFullOrAbsent (course : Course) (lap : Lap) : Bool :=
  match lap.sectors with
  | none => true
  | some st => st.s1.isSome && st.s2.isSome && st.s3.isSome &&
      courseHasSectors course

/-- The sector-population shapes the code can actually produce when the
course has both sector lines: fully populated, only `s1` populated, or
entirely empty. -/
def sectorsShapeOk (sectors : Option SectorTimes) : Bool :=
  match sectors with
  | none => true
  | some st =>
    (st.s1.isSome && st.s2.isSome && st.s3.isSome) ||
    (st.s1.isSome && st.s2.isNone && st.s3.isNone) ||
    (st.s1.isNone && st.s2.isNone && st.s3.isNone)

/-- The instantiation of the `Math.cos` parameter used by concrete runs whose
projection center is at latitude 0: IEEE-754 `cos 0` is exactly 1. -/
def cosOne : ℚ → ℚ := fun _ => 1

/-- Shorthand for building a concrete sample. -/
def mkS (t lat lon : ℚ) : GpsSample :=
  { t := t, lat := lat, lon := lon, speedMps := 5, speedMph := 10, speedKph := 18 }

/-- Concrete stream for the C1 counterexample: crosses start/finish at
t=1000 heading east, crosses the sector-2 line at t=3000, loops back north
of both lines and crosses start/finish again at t=9000 in the same
direction; the sector-3 line (at lon 0.01) is never reached. -/
def samplesC1 : List GpsSample :=
  [ mkS 0 0 (-0.001), mkS 2000 0 0.001, mkS 4000 0 0.003
  , mkS 5000 0.002 0.003, mkS 6000 0.002 (-0.001), mkS 8000 0 (-0.001)
  , mkS 10000 0 0.001 ]

/-- Concrete course for the C1 counterexample: start/finish at lon 0,
sector-2 line at lon 0.002, sector-3 line at lon 0.01; the projection center
is at latitude 0, so `Math.cos` is only evaluated at 0. -/
def courseC1 : Course :=
  { startFinishA := { lat := -0.001, lon := 0 }
  , startFinishB := { lat := 0.001, lon := 0 }
  , sector2 := some { a := { lat := -0.001, lon := 0.002 }
                    , b := { lat := 0.001, lon := 0.002 } }
  , sector3 := some { a := { lat := -0.001, lon := 0.01 }
                    , b := { lat := 0.001, lon := 0.01 } } }

/-- A lap whose recorded sector times are inconsistent with its lap time
(sectors sum to 6000 ms against a 1000 ms lap); used to refute the
unrestricted reading of the optimal-lap bound. -/
def lapC5 : Lap :=
  { lapNumber := 1, startTime := 0, endTime := 1000, lapTimeMs := 1000
  , maxSpeedMph := 50, maxSpeedKph := 80, minSpeedMph := 10, minSpeedKph := 16
  , startIndex := 0, endIndex := 10
  , sectors := some { s1 := some 2000, s2 := some 2000, s3 := some 2000 } }

/-- First lap of the consistent witness list: sectors 1000/2000/3000 summing
to its 6000 ms lap time. -/
def lapAw : Lap :=
  { lapNumber := 1, startTime := 0, endTime := 6000, lapTimeMs := 6000
  , maxSpeedMph := 50, maxSpeedKph := 80, minSpeedMph := 10, minSpeedKph := 16
  , startIndex := 0, endIndex := 10
  , sectors := some { s1 := some 1000, s2 := some 2000, s3 := some 3000 } }

/-- Second lap of the consistent witness list: sectors 1500/1500/1500 summing
to its 4500 ms lap time. -/
def lapBw : Lap :=
  { lapNumber := 2, startTime := 6000, endTime := 10500, lapTimeMs := 4500
  , maxSpeedMph := 52, maxSpeedKph := 83, minSpeedMph := 12, minSpeedKph := 19
  , startIndex := 10, endIndex := 20
  , sectors := some { s1 := some 1500, s2 := some 1500, s3 := some 1500 } }

/-- A consistent two-lap list (sector sums equal lap times) for the
optimal-lap witnesses. -/
def lapsC5w : List Lap := [lapAw, lapBw]

/-- A consistent optimal-lap result for the witness list `lapsC5w`:
best sectors 1000/1500/1500 (from different laps), optimal 4000,
fastest actual lap 4500. -/
def resC5w : OptimalLapResult :=
  { optimalTimeMs := 4000, bestS1 := 1000, bestS2 := 1500, bestS3 := 1500
  , deltaToFastest := 500 }

/-! ## Speed-event detection (source: `src/lib/speedEvents.ts`) -/

/-- JavaScript `Math.round`: round half toward positive infinity. -/
def jsRound (q : ℚ) : ℚ := (⌊q + 1/2⌋ : ℤ)

/-- Speed extremum type (source: `'peak' | 'valley'`). -/
inductive ExtremumType where
  | peak
  | valley
deriving DecidableEq, Repr

/-- A detected speed extremum (source: `SpeedEvent`). -/
structure SpeedEvent where
  type : ExtremumType
  /-- rounded integer for display -/
  speed : ℚ
  lat : ℚ
  lon : ℚ
  index : ℕ
  time : ℚ
deriving DecidableEq, Repr

/-- Detector options, in merged (fully-populated) form
(source: `SpeedEventOptions` after the `{...DEFAULT_OPTIONS, ...options}`
merge). -/
structure SpeedEventOptions where
  smoothingWindow : ℕ
  minSwing : ℚ
  minSeparationMs : ℚ
  debounceCount : ℕ
deriving DecidableEq, Repr

/-- Default detector options (source: `DEFAULT_OPTIONS`). -/
def DEFAULT_OPTIONS : SpeedEventOptions :=
  { smoothingWindow := 5, minSwing := 3, minSeparationMs := 1000
  , debounceCount := 2 }

/-- Centered moving-average smoothing of the mph speed series
(source: `smoothSpeeds`). -/
def smoothSpeeds (samples : List GpsSample) (windowSize : ℕ) : List ℚ :=
  let speeds := samples.map (·.speedMph)
  let halfWindow := windowSize / 2
  (List.range speeds.length).map fun i =>
    let lo := i - halfWindow
    let hi := min (speeds.length - 1) (i + halfWindow)
    let js := List.range' lo (hi + 1 - lo)
    (js.foldl (fun s j => s + speeds.getD j 0) 0) / js.length

/-- Sign of a smoothed-speed delta with the ±0.01 dead band
(source: the `currentSign` computation). -/
inductive DerivSign where
  | pos
  | neg
  | zero
deriving DecidableEq, Repr

/-- Dead-banded derivative sign. -/
def signOf (dv : ℚ) : DerivSign :=
  if dv > 0.01 then DerivSign.pos
  else if dv < -0.01 then DerivSign.neg
  else DerivSign.zero

/-- The inner debounce loop (source: the `for (let j = i; ...)` loop):
walks the indices after a sign change, skipping dead-band deltas, failing if
the old sign reappears, counting confirming deltas otherwise. -/
def debounceCheck (smoothed : List ℚ) (lastSign : DerivSign) :
    List ℕ → ℕ → Bool × ℕ
  | [], cnt => (true, cnt)
  | j :: js, cnt =>
    let checkDv := smoothed.getD j 0 - smoothed.getD (j - 1) 0
    let checkSign := signOf checkDv
    if checkSign = DerivSign.zero then debounceCheck smoothed lastSign js cnt
    else if checkSign = lastSign then (false, cnt)
    else debounceCheck smoothed lastSign js (cnt + 1)

/-- Detector state carried through the scan (the mutable locals of
`findSpeedEvents`); events are accumulated most-recent-first. -/
structure SEState where
  lastExtremumType : Option ExtremumType
  lastExtremumSpeed : ℚ
  /-- `none` models the `-Infinity` seed. -/
  lastExtremumTime : Option ℚ
  lastDerivSign : DerivSign
  revEvents : List SpeedEvent
deriving DecidableEq, Repr

/-- The in-place replacement path (source: the `else if (passesSwing &&
!isAlternating)` block): replace the most recent event when the candidate is
strictly more extreme in the same direction; returns the new event list and
whether a replacement happened. -/
def replaceIfMoreExtreme (revEvents : List SpeedEvent) (newEvent : SpeedEvent)
    (candidateType : ExtremumType) (candidateSpeed : ℚ) :
    List SpeedEvent × Bool :=
  match revEvents with
  | [] => ([], false)
  | lastEvent :: older =>
    let shouldReplace : Bool :=
      match candidateType with
      | ExtremumType.peak => decide (candidateSpeed > lastEvent.speed)
      | ExtremumType.valley => decide (candidateSpeed < lastEvent.speed)
    if shouldReplace then (newEvent :: older, true)
    else (lastEvent :: older, false)

/-- One iteration of the main scan of `findSpeedEvents` at index `i`. -/
def findStep (samples : List GpsSample) (smoothed : List ℚ)
    (opts : SpeedEventOptions) (i : ℕ) (st : SEState) : SEState :=
  let dv := smoothed.getD i 0 - smoothed.getD (i - 1) 0
  let currentSign := signOf dv
  let st1 :=
    if currentSign ≠ DerivSign.zero ∧ st.lastDerivSign ≠ DerivSign.zero ∧
        currentSign ≠ st.lastDerivSign then
      -- Sign changed - start tracking a candidate
      let candidateType :=
        if st.lastDerivSign = DerivSign.pos then ExtremumType.peak
        else ExtremumType.valley
      -- The extremum occurred at index i-1 (before the sign change)
      let candidateIndex := i - 1
      let candidateSpeed := smoothed.getD candidateIndex 0
      let js := List.range' i (min (i + opts.debounceCount) smoothed.length - i)
      let check := debounceCheck smoothed st.lastDerivSign js 1
      if check.1 = true ∧ check.2 ≥ opts.debounceCount then
        let sample := samples.getD candidateIndex default
        let currentTime := sample.t
        -- Check minimum separation (false against the -Infinity seed)
        let tooClose :=
          match st.lastExtremumTime with
          | none => false
          | some lt => decide (currentTime - lt < opts.minSeparationMs)
        if tooClose then st
        else
          -- Check minimum swing (prominence)
          let passesSwing :=
            match st.lastExtremumType with
            | none => true
            | some _ => decide (|candidateSpeed - st.lastExtremumSpeed| ≥ opts.minSwing)
          -- Check that we're alternating or this is the first
          let isAlternating :=
            match st.lastExtremumType with
            | none => true
            | some ty => decide (ty ≠ candidateType)
          let newEvent : SpeedEvent :=
            { type := candidateType, speed := jsRound candidateSpeed
            , lat := sample.lat, lon := sample.lon
            , index := candidateIndex, time := currentTime }
          if passesSwing && isAlternating then
            { st with revEvents := newEvent :: st.revEvents
                    , lastExtremumType := some candidateType
                    , lastExtremumSpeed := candidateSpeed
                    , lastExtremumTime := some currentTime }
          else if passesSwing && !isAlternating then
            -- Same type as last - replace if this one is more extreme
            let rep := replaceIfMoreExtreme st.revEvents newEvent
              candidateType candidateSpeed
            if rep.2 then
              { st with revEvents := rep.1
                      , lastExtremumSpeed := candidateSpeed
                      , lastExtremumTime := some currentTime }
            else st
          else st
      else st
    else st
  if currentSign ≠ DerivSign.zero then { st1 with lastDerivSign := currentSign }
  else st1

/-- The main scan loop of `findSpeedEvents` over indices `1 ≤ i < length`. -/
def findLoop (samples : List GpsSample) (smoothed : List ℚ)
    (opts : SpeedEventOptions) : List ℕ → SEState → SEState
  | [], st => st
  | i :: is, st => findLoop samples smoothed opts is (findStep samples smoothed opts i st)

/-- Find local speed extrema with hysteresis and noise filtering
(source: `findSpeedEvents`). -/
def findSpeedEvents (samples : List GpsSample) (opts : SpeedEventOptions) :
    List SpeedEvent :=
  if samples.length < opts.smoothingWindow + opts.debounceCount then []
  else
    let smoothed := smoothSpeeds samples opts.smoothingWindow
    (findLoop samples smoothed opts (List.range' 1 (smoothed.length - 1))
      { lastExtremumType := none, lastExtremumSpeed := 0
      , lastExtremumTime := none, lastDerivSign := DerivSign.zero
      , revEvents := [] }).revEvents.reverse

/-- Invariant of the speed-event scan: accumulated events alternate in type,
and the tracked `lastExtremumType` agrees with the most recent event. -/
def SEInv (st : SEState) : Prop :=
  List.Chain' (fun a b => a.type ≠ b.type) st.revEvents ∧
  ∀ e, st.revEvents.head? = some e → st.lastExtremumType = some e.type

/-! ## Teleportation filters (sources: `ubxParser.ts`, `vboParser.ts`,
`alfanoParser.ts`, `aimParser.ts`) -/

/-- The UBX decoder's teleportation filter decision, as a function of the
time delta (seconds) and the haversine distance (meters) between the
candidate and the previously accepted sample (source: `parseUbxFile`,
the `Teleportation filter` block): reject when `0 < Δt < 10` and the
distance exceeds both `50·(Δt/0.04)` m and 100 m. -/
def ubxTeleportRejects (timeDiff distance : ℚ) : Bool :=
  decide (timeDiff > 0) && decide (timeDiff < 10) &&
    (decide (distance > 50 * (timeDiff / 0.04)) && decide (distance > 100))

/-- The VBO decoder's teleportation filter decision (source: `parseVboFile`);
textually identical to the UBX filter. -/
def vboTeleportRejects (timeDiff distance : ℚ) : Bool :=
  decide (timeDiff > 0) && decide (timeDiff < 10) &&
    (decide (distance > 50 * (timeDiff / 0.04)) && decide (distance > 100))

/-- The Alfano decoder's teleportation filter decision
(source: `parseAlfanoFile`); textually identical to the UBX filter. -/
def alfanoTeleportRejects (timeDiff distance : ℚ) : Bool :=
  decide (timeDiff > 0) && decide (timeDiff < 10) &&
    (decide (distance > 50 * (timeDiff / 0.04)) && decide (distance > 100))

/-- The AiM decoder's teleportation filter decision (source: `parseAimFile`,
the `Teleportation filter` block): reject when `Δt > 0` and the implied
speed `distance/Δt` exceeds 100 m/s. -/
def aimTeleportRejects (dt dist : ℚ) : Bool :=
  decide (dt > 0) && decide (dist / dt > 100)

/-! ## UBX binary decoder (source: `src/lib/ubxParser.ts`) -/

/-- A decoded stream as consumed by downstream components; of the source's
`ParsedData` only the sample list and duration are modelled (see the module
header for the omitted display fields). -/
structure ParsedData where
  samples : List GpsSample
  duration : ℚ
deriving DecidableEq, Repr

/-- UBX Fletcher checksum over `length` bytes starting at `start`
(source: `calculateChecksum`); `& 0xFF` is `% 256`. -/
def calculateChecksum (data : List ℕ) (start length : ℕ) : ℕ × ℕ :=
  (List.range length).foldl
    (fun ck j =>
      let ckA := (ck.1 + data.getD (start + j) 0) % 256
      (ckA, (ck.2 + ckA) % 256))
    (0, 0)

/-- Little-endian 16-bit read (`DataView.getUint16(i, true)`). -/
def getUint16LE (data : List ℕ) (i : ℕ) : ℕ :=
  data.getD i 0 + 256 * data.getD (i + 1) 0

/-- Little-endian 32-bit unsigned read (`DataView.getUint32(i, true)`). -/
def getUint32LE (data : List ℕ) (i : ℕ) : ℕ :=
  data.getD i 0 + 256 * data.getD (i + 1) 0 + 65536 * data.getD (i + 2) 0 +
    16777216 * data.getD (i + 3) 0

/-- Little-endian 32-bit signed read (`DataView.getInt32(i, true)`). -/
def getInt32LE (data : List ℕ) (i : ℕ) : ℤ :=
  let u := getUint32LE data i
  if u < 2147483648 then (u : ℤ) else (u : ℤ) - 4294967296

/-- The NAV-PVT payload fields (source: `UbxNavPvt`). -/
structure UbxNavPvt where
  iTOW : ℕ
  year : ℕ
  month : ℕ
  day : ℕ
  hour : ℕ
  min : ℕ
  sec : ℕ
  valid : ℕ
  tAcc : ℕ
  nano : ℤ
  fixType : ℕ
  flags : ℕ
  flags2 : ℕ
  numSV : ℕ
  lon : ℤ
  lat : ℤ
  height : ℤ
  hMSL : ℤ
  hAcc : ℕ
  vAcc : ℕ
  velN : ℤ
  velE : ℤ
  velD : ℤ
  gSpeed : ℤ
  headMot : ℤ
  sAcc : ℕ
  headAcc : ℕ
  pDOP : ℕ
  headVeh : ℤ
deriving DecidableEq, Repr

/-- Parse a NAV-PVT payload at `offset` (source: `parseNavPvt`).  The
source's try/catch around the `DataView` reads is modelled by a single
bounds test covering the furthest byte read (`offset + 87`). -/
def parseNavPvt (data : List ℕ) (offset : ℕ) : Option UbxNavPvt :=
  if offset + 88 ≤ data.length then
    some
      { iTOW := getUint32LE data offset
      , year := getUint16LE data (offset + 4)
      , month := data.getD (offset + 6) 0
      , day := data.getD (offset + 7) 0
      , hour := data.getD (offset + 8) 0
      , min := data.getD (offset + 9) 0
      , sec := data.getD (offset + 10) 0
      , valid := data.getD (offset + 11) 0
      , tAcc := getUint32LE data (offset + 12)
      , nano := getInt32LE data (offset + 16)
      , fixType := data.getD (offset + 20) 0
      , flags := data.getD (offset + 21) 0
      , flags2 := data.getD (offset + 22) 0
      , numSV := data.getD (offset + 23) 0
      , lon := getInt32LE data (offset + 24)
      , lat := getInt32LE data (offset + 28)
      , height := getInt32LE data (offset + 32)
      , hMSL := getInt32LE data (offset + 36)
      , hAcc := getUint32LE data (offset + 40)
      , vAcc := getUint32LE data (offset + 44)
      , velN := getInt32LE data (offset + 48)
      , velE := getInt32LE data (offset + 52)
      , velD := getInt32LE data (offset + 56)
      , gSpeed := getInt32LE data (offset + 60)
      , headMot := getInt32LE data (offset + 64)
      , sAcc := getUint32LE data (offset + 68)
      , headAcc := getUint32LE data (offset + 72)
      , pDOP := getUint16LE data (offset + 76)
      , headVeh := getInt32LE data (offset + 84) }
  else none

/-- Scan state of `parseUbxFile`'s while loop; samples are accumulated
most-recent-first. -/
structure UbxScanState where
  i : ℕ
  baseTimeMs : ℚ
  samples : List GpsSample
deriving DecidableEq, Repr

/-- NAV-PVT sample extraction (the `Process NAV-PVT messages` block of
`parseUbxFile`): validity, coordinate-range, speed-sanity and teleportation
checks, then the sample push.  Returns the updated base time and sample
accumulator.  `hav` stands for the haversine distance routine. -/
def ubxProcessPvt (hav : ℚ → ℚ → ℚ → ℚ → ℚ) (data : List ℕ)
    (st : UbxScanState) (offset : ℕ) : ℚ × List GpsSample :=
  match parseNavPvt data offset with
  | none => (st.baseTimeMs, st.samples)
  | some pvt =>
    -- Valid fix with gnssFixOK flag (`pvt.fixType >= 2 && (pvt.flags & 0x01)`)
    if pvt.fixType ≥ 2 ∧ pvt.flags % 2 = 1 then
      let lat : ℚ := (pvt.lat : ℚ) / 10000000
      let lon : ℚ := (pvt.lon : ℚ) / 10000000
      -- Skip invalid coordinates
      if lat ≠ 0 ∧ lon ≠ 0 ∧ |lat| ≤ 90 ∧ |lon| ≤ 180 then
        let timeMs : ℚ := (pvt.iTOW : ℚ)
        let baseTimeMs := if st.samples.length = 0 then timeMs else st.baseTimeMs
        let t := timeMs - baseTimeMs
        -- Handle time wrap (week rollover): 604800000 ms in a week
        let adjustedT := if t < 0 then t + 604800000 else t
        -- Ground speed from mm/s to m/s
        let speedMps0 : ℚ := (pvt.gSpeed : ℚ) / 1000
        -- Sanity check on speed (max ~150 m/s / 335 mph)
        let speedMps := if speedMps0 > 150 then
            (match st.samples with
             | prev :: _ => prev.speedMps
             | [] => 0)
          else speedMps0
        -- Teleportation filter
        let rejected :=
          match st.samples with
          | prev :: _ =>
            ubxTeleportRejects ((adjustedT - prev.t) / 1000)
              (hav prev.lat prev.lon lat lon)
          | [] => false
        if rejected then (baseTimeMs, st.samples)
        else
          (baseTimeMs,
            { t := adjustedT, lat := lat, lon := lon, speedMps := speedMps
            , speedMph := speedMps * 2.23694
            , speedKph := speedMps * 3.6 } :: st.samples)
      else (st.baseTimeMs, st.samples)
    else (st.baseTimeMs, st.samples)

/-- One iteration of `parseUbxFile`'s while loop (body of
`while (i < data.length - 8)`): sync scan, length check, checksum check,
frame processing; on any failed check the scan position advances by exactly
one byte. -/
def ubxStep (hav : ℚ → ℚ → ℚ → ℚ → ℚ) (data : List ℕ)
    (st : UbxScanState) : UbxScanState :=
  -- Look for UBX sync bytes
  if ¬(data.getD st.i 0 = 0xB5 ∧ data.getD (st.i + 1) 0 = 0x62) then
    { st with i := st.i + 1 }
  else
    let msgClass := data.getD (st.i + 2) 0
    let msgId := data.getD (st.i + 3) 0
    let length := getUint16LE data (st.i + 4)
    -- Validate we have enough data
    if st.i + 6 + length + 2 > data.length then { st with i := st.i + 1 }
    else
      -- Verify checksum
      let ck := calculateChecksum data (st.i + 2) (length + 4)
      let expectedCkA := data.getD (st.i + 6 + length) 0
      let expectedCkB := data.getD (st.i + 6 + length + 1) 0
      if ¬(ck.1 = expectedCkA ∧ ck.2 = expectedCkB) then { st with i := st.i + 1 }
      else
        -- Process NAV-PVT messages, then move to next message
        let pr :=
          if msgClass = 0x01 ∧ msgId = 0x07 ∧ length ≥ 84 then
            ubxProcessPvt hav data st (st.i + 6)
          else (st.baseTimeMs, st.samples)
        { i := st.i + 6 + length + 2, baseTimeMs := pr.1, samples := pr.2 }

/-- `parseUbxFile`'s while loop, fuelled: each iteration advances `i` by at
least one byte, so `data.length + 1` iterations always reach the loop
condition `i < data.length - 8` turning false. -/
def ubxLoop (hav : ℚ → ℚ → ℚ → ℚ → ℚ) (data : List ℕ) :
    ℕ → UbxScanState → UbxScanState
  | 0, st => st
  | fuel + 1, st =>
    if st.i + 8 < data.length then ubxLoop hav data fuel (ubxStep hav data st)
    else st

/-- Decode a UBX byte buffer (source: `parseUbxFile`); fails when no valid
sample was decoded, otherwise sorts samples by time (stable, as JS
`Array.prototype.sort` is) and returns the stream. -/
def parseUbxFile (hav : ℚ → ℚ → ℚ → ℚ → ℚ) (data : List ℕ) :
    Except String ParsedData :=
  let final := ubxLoop hav data (data.length + 1)
    { i := 0, baseTimeMs := 0, samples := [] }
  let samples := final.samples.reverse
  if samples.length = 0 then Except.error "No valid GPS data found in UBX file"
  else
    -- Sort samples by time (in case of out-of-order messages)
    let sorted := samples.mergeSort (fun a b => decide (a.t ≤ b.t))
    Except.ok { samples := sorted
              , duration := ((sorted.getLast?).map (·.t)).getD 0 }

/-- Sync bytes present at position `i` (the first scan test of
`parseUbxFile`). -/
abbrev ubxSyncAt (data : List ℕ) (i : ℕ) : Prop :=
  data.getD i 0 = 0xB5 ∧ data.getD (i + 1) 0 = 0x62

/-- The frame's payload length field at position `i`. -/
def ubxFrameLen (data : List ℕ) (i : ℕ) : ℕ := getUint16LE data (i + 4)

/-- The whole frame at position `i` fits in the buffer. -/
abbrev ubxFrameFits (data : List ℕ) (i : ℕ) : Prop :=
  i + 6 + ubxFrameLen data i + 2 ≤ data.length

/-- The frame's Fletcher checksum over (class, id, length, payload) matches
its two trailing checksum bytes. -/
abbrev ubxChecksumOk (data : List ℕ) (i : ℕ) : Prop :=
  (calculateChecksum data (i + 2) (ubxFrameLen data i + 4)).1 =
      data.getD (i + 6 + ubxFrameLen data i) 0 ∧
  (calculateChecksum data (i + 2) (ubxFrameLen data i + 4)).2 =
      data.getD (i + 6 + ubxFrameLen data i + 1) 0

/-! ## Shared sample invariants and concrete decoder inputs -/

/-- The coordinate invariant claimed for accepted samples:
`|lat| ≤ 90 ∧ |lon| ≤ 180 ∧ lat ≠ 0 ∧ lon ≠ 0`. -/
def coordOk (s : GpsSample) : Bool :=
  decide (|s.lat| ≤ 90) && decide (|s.lon| ≤ 180) &&
    decide (s.lat ≠ 0) && decide (s.lon ≠ 0)

/-- The cached-unit law for speeds:
`speedKph = speedMps·3.6` and `speedMph = speedMps·2.23694`. -/
def speedUnitsOk (s : GpsSample) : Bool :=
  decide (s.speedKph = s.speedMps * 3.6) &&
    decide (s.speedMph = s.speedMps * 2.23694)

/-- The samples of a decode result (empty on a decode error). -/
def parsedSamples (r : Except String ParsedData) : List GpsSample :=
  match r with
  | Except.ok d => d.samples
  | Except.error _ => []

/-- Haversine instantiation for concrete runs whose consecutive fixes
coincide (distance 0). -/
def havZero : ℚ → ℚ → ℚ → ℚ → ℚ := fun _ _ _ _ => 0

/-- A well-formed 100-byte UBX NAV-PVT frame: sync B5 62, class 01, id 07,
length 92, fix type 3, gnssFixOK, lat 10°, lon 20°, ground speed 5000 mm/s,
correct Fletcher checksum 129/171. -/
def ubxDemoFrame : List ℕ :=
  [181, 98, 1, 7, 92, 0, 232, 3, 0, 0, 0, 0, 0, 0, 0, 0, 0, 0, 0, 0, 0, 0, 0, 0,
   0, 0, 3, 1, 0, 0, 0, 194, 235, 11, 0, 225, 245, 5, 0, 0, 0, 0, 0, 0, 0, 0, 0,
   0, 0, 0, 0, 0, 0, 0, 0, 0, 0, 0, 0, 0, 0, 0, 0, 0, 0, 0, 136, 19, 0, 0, 0, 0,
   0, 0, 0, 0, 0, 0, 0, 0, 0, 0, 0, 0, 0, 0, 0, 0, 0, 0, 0, 0, 0, 0, 0, 0, 0, 0,
   129, 171]

/-- A syncable frame whose trailing checksum bytes are wrong (payload length
0, class 1, id 7; computed checksum is 8/25 but the frame carries 0/0). -/
def ubxBadFrame : List ℕ := [181, 98, 1, 7, 0, 0, 0, 0, 0, 9, 9, 9]

/-! ## JavaScript string/number primitives shared by the text decoders -/

/-- A JavaScript number that may be `NaN` (`none`). -/
abbrev JsNum := Option ℚ

/-- NaN-propagating addition. -/
def jsAdd (a b : JsNum) : JsNum :=
  match a, b with
  | some x, some y => some (x + y)
  | _, _ => none

/-- NaN-propagating subtraction. -/
def jsSub (a b : JsNum) : JsNum :=
  match a, b with
  | some x, some y => some (x - y)
  | _, _ => none

/-- NaN-propagating multiplication. -/
def jsMul (a b : JsNum) : JsNum :=
  match a, b with
  | some x, some y => some (x * y)
  | _, _ => none

/-- NaN-propagating division (used only where the source guarantees a
nonzero divisor). -/
def jsDiv (a b : JsNum) : JsNum :=
  match a, b with
  | some x, some y => some (x / y)
  | _, _ => none

/-- NaN-propagating negation. -/
def jsNeg (a : JsNum) : JsNum := a.map Neg.neg

/-- JS `<`: false whenever either side is NaN. -/
def jsLt (a b : JsNum) : Bool :=
  match a, b with
  | some x, some y => decide (x < y)
  | _, _ => false

/-- JS `>`: false whenever either side is NaN. -/
def jsGt (a b : JsNum) : Bool :=
  match a, b with
  | some x, some y => decide (x > y)
  | _, _ => false

/-- Numeric value of a decimal digit character. -/
def natOfDigits (ds : List Char) : ℕ :=
  ds.foldl (fun a c => 10 * a + (c.toNat - 48)) 0

/-- JS `parseFloat` on a character list: skip leading whitespace, optional
sign, longest `digits[.digits][(e|E)[sign]digits]` prefix; `none` (NaN) when
no digits were found.  (`Infinity` literals and hex forms are outside the
inputs modelled here.) -/
def jsParseFloatChars (l0 : List Char) : Option ℚ :=
  let l := l0.dropWhile Char.isWhitespace
  let sl : ℚ × List Char :=
    match l with
    | '-' :: rest => (-1, rest)
    | '+' :: rest => (1, rest)
    | _ => (1, l)
  let intPart := sl.2.takeWhile Char.isDigit
  let rest1 := sl.2.dropWhile Char.isDigit
  let fr : List Char × List Char :=
    match rest1 with
    | '.' :: r => (r.takeWhile Char.isDigit, r.dropWhile Char.isDigit)
    | _ => ([], rest1)
  if intPart.isEmpty ∧ fr.1.isEmpty then none
  else
    let mantissa : ℚ :=
      (natOfDigits intPart : ℚ) + (natOfDigits fr.1 : ℚ) / 10 ^ fr.1.length
    let expVal : ℤ :=
      match fr.2 with
      | 'e' :: '-' :: r => if (r.takeWhile Char.isDigit).isEmpty then 0
          else -(natOfDigits (r.takeWhile Char.isDigit) : ℤ)
      | 'e' :: '+' :: r => (natOfDigits (r.takeWhile Char.isDigit) : ℤ)
      | 'e' :: r => (natOfDigits (r.takeWhile Char.isDigit) : ℤ)
      | 'E' :: '-' :: r => if (r.takeWhile Char.isDigit).isEmpty then 0
          else -(natOfDigits (r.takeWhile Char.isDigit) : ℤ)
      | 'E' :: '+' :: r => (natOfDigits (r.takeWhile Char.isDigit) : ℤ)
      | 'E' :: r => (natOfDigits (r.takeWhile Char.isDigit) : ℤ)
      | _ => 0
    some (sl.1 * mantissa * (10 : ℚ) ^ expVal)

/-- JS `parseFloat` on a string. -/
def jsParseFloat (s : String) : Option ℚ := jsParseFloatChars s.toList

/-- JS `parseFloat(x) || 0`: NaN (and 0 itself) collapse to 0. -/
def jsParseFloatOr0 (s : String) : ℚ := (jsParseFloat s).getD 0

/-- JS `parseInt(x, 10)`: skip leading whitespace, optional sign, longest
digit prefix; `none` (NaN) when no digits were found. -/
def jsParseInt (s : String) : Option ℤ :=
  let l := s.toList.dropWhile Char.isWhitespace
  let sl : ℤ × List Char :=
    match l with
    | '-' :: rest => (-1, rest)
    | '+' :: rest => (1, rest)
    | _ => (1, l)
  let ds := sl.2.takeWhile Char.isDigit
  if ds.isEmpty then none else some (sl.1 * (natOfDigits ds : ℤ))

/-- Split on `/\r?\n/`: split at each newline and strip one trailing
carriage return from each piece. -/
def jsSplitLines (content : String) : List String :=
  (content.splitOn ("\n")).map fun l =>
    if l.endsWith ("\r") then l.dropRight 1 else l

/-- Split on `/\s+/` for already-trimmed input: split at whitespace runs. -/
def jsSplitWs (s : String) : List String :=
  (s.split Char.isWhitespace).filter (fun f => ¬(f = ""))

/-- Whether `pat` starts the character list. -/
def charsStartsWith : List Char → List Char → Bool
  | _, [] => true
  | [], _ :: _ => false
  | c :: cs, p :: ps => c = p && charsStartsWith cs ps

/-- Whether `pat` occurs anywhere in the character list. -/
def charsContains (pat : List Char) : List Char → Bool
  | [] => pat.isEmpty
  | c :: rest => charsStartsWith (c :: rest) pat || charsContains pat rest

/-- JS `String.prototype.includes`. -/
def jsIncludes (s pat : String) : Bool := charsContains pat.toList s.toList

/-- JS `String.prototype.padStart(n, '0')`. -/
def jsPadStart0 (s : String) (n : ℕ) : String :=
  if s.length < n then String.mk (List.replicate (n - s.length) '0') ++ s
  else s

/-! ## NMEA datalog decoder (source: `src/lib/nmeaParser.ts`) -/

namespace Nmea

/-- Parsed NMEA time fields (source: `parseNmeaTime`'s result). -/
structure NmeaTime where
  hours : JsNum
  minutes : JsNum
  seconds : JsNum
  ms : JsNum
deriving DecidableEq, Repr

/-- Parse NMEA `hhmmss.sss` time (source: `parseNmeaTime`);
`Math.floor`/`Math.round` are the rational floor and round-half-up. -/
def parseNmeaTime (value : String) : NmeaTime :=
  if value.length < 6 then
    { hours := some 0, minutes := some 0, seconds := some 0, ms := some 0 }
  else
    let hours : JsNum := (jsParseInt (value.take 2)).map fun n => (n : ℚ)
    let minutes : JsNum := (jsParseInt ((value.drop 2).take 2)).map fun n => (n : ℚ)
    let secondsStr := value.drop 4
    let seconds : JsNum := (jsParseFloat secondsStr).map fun q => ((⌊q⌋ : ℤ) : ℚ)
    let ms : JsNum :=
      (jsMul (jsSub (jsParseFloat secondsStr) seconds) (some 1000)).map jsRound
    { hours := hours, minutes := minutes, seconds := seconds, ms := ms }

/-- Parse NMEA `ddmm.mmmm` latitude with hemisphere letter
(source: `parseNmeaLat`; an empty or short field yields 0). -/
def parseNmeaLat (value dir : String) : JsNum :=
  if value.length < 4 then some 0
  else
    let deg : JsNum := (jsParseInt (value.take 2)).map fun n => (n : ℚ)
    let minu : JsNum := jsParseFloat (value.drop 2)
    let lat := jsAdd deg (jsDiv minu (some 60))
    if dir = ("S") then jsNeg lat else lat

/-- Parse NMEA `dddmm.mmmm` longitude with hemisphere letter
(source: `parseNmeaLon`). -/
def parseNmeaLon (value dir : String) : JsNum :=
  if value.length < 5 then some 0
  else
    let deg : JsNum := (jsParseInt (value.take 3)).map fun n => (n : ℚ)
    let minu : JsNum := jsParseFloat (value.drop 3)
    let lon := jsAdd deg (jsDiv minu (some 60))
    if dir = ("W") then jsNeg lon else lon

/-- Parse NMEA `ddmmyy` date (source: `parseNmeaDate`); components are
NaN-able, the whole value is `none` for short fields. -/
def parseNmeaDate (value : String) : Option (Option ℤ × Option ℤ × Option ℤ) :=
  if value.length < 6 then none
  else some (jsParseInt (value.take 2), jsParseInt ((value.drop 2).take 2),
    (jsParseInt ((value.drop 4).take 2)).map (2000 + ·))

/-- Convert knots to m/s (source: `knotsToMps`). -/
def knotsToMps (knots : ℚ) : ℚ := knots * 0.514444

/-- A parsed RMC sentence (source: `ParsedNmea`; `speedMps` keeps the
source's `number | null` type even though the constructor always supplies a
number). -/
structure ParsedNmea where
  lat : JsNum
  lon : JsNum
  /-- ms since midnight -/
  timeMs : JsNum
  speedMps : Option ℚ
  date : Option (Option ℤ × Option ℤ × Option ℤ)
  valid : Bool
deriving DecidableEq, Repr

/-- Parse one NMEA sentence, accepting only `$GPRMC`/`$GNRMC` with status
`A` (source: `parseNmeaSentence`); the `replace(/^"|"$/g, '')` strips one
leading and one trailing quote. -/
def parseNmeaSentence (sentence0 : String) : Option ParsedNmea :=
  let s1 := if sentence0.startsWith ("\"") then sentence0.drop 1 else sentence0
  let s2 := if s1.endsWith ("\"") then s1.dropRight 1 else s1
  let sentence := s2.trim
  let parts := sentence.splitOn (",")
  if parts.length < 10 then none
  else
    let type := parts.getD 0 ""
    -- Only parse RMC sentences - they have position AND speed
    if ¬(type = ("$GPRMC") ∨ type = ("$GNRMC")) then none
    else if ¬(parts.getD 2 "" = ("A")) then none -- Not valid fix
    else
      let time := parseNmeaTime (parts.getD 1 "")
      let lat := parseNmeaLat (parts.getD 3 "") (parts.getD 4 "")
      let lon := parseNmeaLon (parts.getD 5 "") (parts.getD 6 "")
      let speedKnots := jsParseFloatOr0 (parts.getD 7 "")
      let date := parseNmeaDate (parts.getD 9 "")
      let timeMs := jsAdd (jsMul (jsAdd (jsAdd (jsMul time.hours (some 3600))
        (jsMul time.minutes (some 60))) time.seconds) (some 1000)) time.ms
      some { lat := lat, lon := lon, timeMs := timeMs
           , speedMps := some (knotsToMps speedKnots), date := date
           , valid := true }

/-- Speed from two GPS points with sanity checks (source:
`calculateSpeed`); `hav` stands for the haversine distance.  `none` stands
for both the source's `null` returns and NaN propagation from NaN-able
inputs; the function is unreachable in `parseDatalog` because
`parseNmeaSentence` always supplies a speed. -/
def calculateSpeed (hav : ℚ → ℚ → ℚ → ℚ → ℚ)
    (lat1 lon1 t1 lat2 lon2 t2 : JsNum) : Option ℚ :=
  let timeDiff := jsDiv (jsSub t2 t1) (some 1000)
  -- Need at least 50ms time difference to calculate speed reliably
  if jsLt timeDiff (some 0.05) then none
  else
    match lat1, lon1, lat2, lon2, timeDiff with
    | some a1, some o1, some a2, some o2, some td =>
      let speedMps := hav a1 o1 a2 o2 / td
      -- Sanity check: max reasonable speed is ~150 m/s
      if speedMps > 150 then none else some speedMps
    | _, _, _, _, _ => none

/-- One decoded NMEA sample; `t`, `lat`, `lon` are NaN-able because the
decoder applies no coordinate checks (`rawNmea` and `extraFields` omitted,
see the module header). -/
structure Sample where
  t : JsNum
  lat : JsNum
  lon : JsNum
  speedMps : ℚ
  speedMph : ℚ
  speedKph : ℚ
deriving DecidableEq, Repr

/-- The decoded NMEA stream (samples and duration). -/
structure ParsedData where
  samples : List Sample
  duration : JsNum
deriving DecidableEq, Repr

/-- Split a datalog line into tab-delimited fields, trimming and unquoting
each (source: the tab-based `parseCSVLine` of `nmeaParser.ts`). -/
def parseCSVLine (line : String) : List String :=
  (line.splitOn ("\t")).map fun field =>
    let cleaned := field.trim
    if cleaned.startsWith ("\"") ∧ cleaned.endsWith ("\"") then
      (cleaned.drop 1).dropRight 1
    else cleaned

/-- Loop state of `parseDatalog`'s line loop; samples are accumulated
most-recent-first. -/
structure ScanState where
  samples : List Sample
  baseTimeMs : JsNum
  lastTimeMs : JsNum
  dayOffset : ℚ
deriving DecidableEq, Repr

/-- One iteration of `parseDatalog`'s line loop. -/
def datalogStep (hav : ℚ → ℚ → ℚ → ℚ → ℚ) (st : ScanState) (l : String) :
    ScanState :=
  let line := l.trim
  if line = "" then st
  else
    let fields := parseCSVLine line
    if fields.length = 0 then st
    else
      -- First field should be the NMEA sentence
      match parseNmeaSentence (fields.getD 0 "") with
      | none => st
      | some parsed =>
        if ¬parsed.valid then st
        else
          -- Handle time wrapping (midnight): 12 hours back means wrap
          let currentTimeMs0 := jsAdd parsed.timeMs (some st.dayOffset)
          let wrapped := jsGt st.lastTimeMs (some 0) &&
            jsLt currentTimeMs0 (jsSub st.lastTimeMs (some 43200000))
          let dayOffset := if wrapped then st.dayOffset + 86400000 else st.dayOffset
          let currentTimeMs :=
            if wrapped then jsAdd parsed.timeMs (some dayOffset) else currentTimeMs0
          -- Set base time from first valid sample
          let baseTimeMs :=
            if st.samples.length = 0 then currentTimeMs else st.baseTimeMs
          let t := jsSub currentTimeMs baseTimeMs
          -- Get speed from NMEA or calculate it from positions
          let speedMps0 := parsed.speedMps
          let speedMps1 :=
            if speedMps0 = none ∧ st.samples.length > 0 then
              match st.samples with
              | prev :: _ =>
                calculateSpeed hav prev.lat prev.lon prev.t parsed.lat parsed.lon t
              | [] => speedMps0
            else speedMps0
          -- Skip samples with no valid speed (defaulted to 0)
          let speedMps2 : ℚ := speedMps1.getD 0
          -- Additional sanity check on speed (max 150 m/s)
          let speedMps :=
            if speedMps2 > 150 then
              match st.samples with
              | prev :: _ => prev.speedMps
              | [] => 0
            else speedMps2
          { samples :=
              { t := t, lat := parsed.lat, lon := parsed.lon
              , speedMps := speedMps
              , speedMph := speedMps * 2.23694
              , speedKph := speedMps * 3.6 } :: st.samples
          , baseTimeMs := baseTimeMs
          , lastTimeMs := currentTimeMs
          , dayOffset := dayOffset }

/-- Decode a tab-delimited NMEA datalog (source: `parseDatalog`).  The
field-mapping bookkeeping of the source touches only the omitted
`extraFields`/`fieldMappings` and is not modelled. -/
def parseDatalog (hav : ℚ → ℚ → ℚ → ℚ → ℚ) (content : String) :
    Except String ParsedData :=
  let lines := (jsSplitLines content).filter fun l => ¬(l.trim = "")
  if lines.length = 0 then Except.error "Empty file"
  else
    let firstLine := lines.getD 0 ""
    let hasHeader := ¬(firstLine.startsWith ("$")) ∧ ¬(firstLine.startsWith ("\"$"))
    let dataStartIndex := if hasHeader then 1 else 0
    let final := (lines.drop dataStartIndex).foldl (datalogStep hav)
      { samples := [], baseTimeMs := some 0, lastTimeMs := some 0, dayOffset := 0 }
    let samples := final.samples.reverse
    if samples.length = 0 then Except.error "No valid GPS data found in file"
    else
      Except.ok { samples := samples
                , duration := ((samples.getLast?).map (·.t)).getD (some 0) }

/-- The samples of an NMEA decode result. -/
def parsedSamplesN (r : Except String ParsedData) : List Sample :=
  match r with
  | Except.ok d => d.samples
  | Except.error _ => []

/-- The claimed coordinate invariant on an NMEA sample (false on NaN
coordinates, as in IEEE comparisons). -/
def coordOkN (s : Sample) : Bool :=
  match s.lat, s.lon with
  | some la, some lo =>
    decide (|la| ≤ 90) && decide (|lo| ≤ 180) &&
      decide (la ≠ 0) && decide (lo ≠ 0)
  | _, _ => false

/-- The cached-unit law on an NMEA sample. -/
def speedUnitsOkN (s : Sample) : Bool :=
  decide (s.speedKph = s.speedMps * 3.6) &&
    decide (s.speedMph = s.speedMps * 2.23694)

end Nmea

/-- A datalog consisting of one RMC sentence with status `A` but empty
latitude/longitude fields: the NMEA decoder accepts it and emits a sample
at latitude 0, longitude 0. -/
def nmeaZeroContent : String := "$GPRMC,120000.00,A,,,,,45.0,,010124,,"

/-! ## VBO decoder (source: `vboParser.ts`) -/

namespace Vbo

/-- The standard VBO column-synonym table (source: `KNOWN_COLUMNS`). -/
def KNOWN_COLUMNS (k : String) : Option String :=
  if k = ("sats") then some ("Satellites")
  else if k = ("satellites") then some ("Satellites")
  else if k = ("time") then some ("time")
  else if k = ("lat") then some ("lat")
  else if k = ("latitude") then some ("lat")
  else if k = ("long") then some ("lon")
  else if k = ("lon") then some ("lon")
  else if k = ("longitude") then some ("lon")
  else if k = ("velocity") then some ("velocity")
  else if k = ("speed") then some ("velocity")
  else if k = ("velocity kmh") then some ("velocity")
  else if k = ("heading") then some ("heading")
  else if k = ("height") then some ("height")
  else if k = ("altitude") then some ("height")
  else if k = ("vert vel") then some ("vertVel")
  else if k = ("vertical velocity") then some ("vertVel")
  else if k = ("long accel") then some ("lonAccel")
  else if k = ("lateral accel") then some ("latAccel")
  else if k = ("lat accel") then some ("latAccel")
  else if k = ("longitudinal accel") then some ("lonAccel")
  else if k = ("yaw rate") then some ("yawRate")
  else if k = ("slip") then some ("slip")
  else if k = ("slip angle") then some ("slip")
  else if k = ("distance") then some ("distance")
  else none

/-- JS object used as a string→index map: later assignments shadow earlier
ones (cons + first-match lookup). -/
def mapInsert (m : List (String × ℕ)) (k : String) (v : ℕ) :
    List (String × ℕ) := (k, v) :: m

/-- Lookup in the shadowing map. -/
def mapLookup (m : List (String × ℕ)) (k : String) : Option ℕ :=
  (m.find? fun e => e.1 = k).map (·.2)

/-- Parse a VBO coordinate: decimal degrees when `|v| ≤ 180`, otherwise
`DDDMM.MMMMM` decimal-minutes (source: `parseVboCoordinate`; NaN parses
yield 0). -/
def parseVboCoordinate (value : String) : ℚ :=
  match jsParseFloat value with
  | none => 0
  | some num =>
    if |num| ≤ 180 then num
    else
      let sign : ℚ := if num < 0 then -1 else 1
      let absNum := |num|
      let degrees : ℚ := ((⌊absNum / 100⌋ : ℤ) : ℚ)
      let minutes := absNum - degrees * 100
      sign * (degrees + minutes / 60)

/-- Parse a VBO time value: `hhmmss.sss` when ≥ 100000, otherwise seconds
since midnight (source: `parseVboTime`).  NaN-able through the inner
`parseFloat` of the padded seconds substring. -/
def parseVboTime (value : String) : JsNum :=
  match jsParseFloat value with
  | none => some 0
  | some num =>
    if num ≥ 100000 then
      let str := jsPadStart0 value 10
      let hours : JsNum := (jsParseInt (str.take 2)).map fun n => (n : ℚ)
      let minutes : JsNum := (jsParseInt ((str.drop 2).take 2)).map fun n => (n : ℚ)
      let seconds : JsNum := jsParseFloat (str.drop 4)
      jsMul (jsAdd (jsAdd (jsMul hours (some 3600)) (jsMul minutes (some 60)))
        seconds) (some 1000)
    else some (num * 1000)

/-- Closed form of the two heading-normalization while loops
(`while (h < 0) h += 360; while (h >= 360) h -= 360`): reduce into
`[0, 360)`. -/
def normalizeHeading360 (h : ℚ) : ℚ := h - 360 * ((⌊h / 360⌋ : ℤ) : ℚ)

/-- One decoded VBO sample: `t` is NaN-able (the time column may fail to
parse); coordinates are plain rationals because the coordinate parser maps
NaN to 0 and the row is then range-checked. -/
structure Sample where
  t : JsNum
  lat : ℚ
  lon : ℚ
  speedMps : ℚ
  speedMph : ℚ
  speedKph : ℚ
  heading : Option ℚ
deriving DecidableEq, Repr

/-- The decoded VBO stream. -/
structure ParsedData where
  samples : List Sample
  duration : JsNum
deriving DecidableEq, Repr

/-- Loop state of the data-row loop; `baseTimeMs = none` models the `null`
sentinel (distinct from NaN, which lives inside the `JsNum`). -/
structure ScanState where
  columnMap : List (String × ℕ)
  samples : List Sample
  baseTimeMs : Option JsNum
deriving DecidableEq, Repr

/-- The one-shot positional-fallback column-map update of the data-row loop
(`sats, time, lat, long, velocity, heading, height`), applied when the
lat/lon columns are unknown. -/
def vboCm (cm0 : List (String × ℕ)) (nFields : ℕ) (fallback : Bool) :
    List (String × ℕ) :=
  if fallback then
    let m1 := mapInsert cm0 ("Satellites") 0
    let m2 := mapInsert m1 ("time") 1
    let m3 := mapInsert m2 ("lat") 2
    let m4 := mapInsert m3 ("lon") 3
    let m5 := mapInsert m4 ("velocity") 4
    let m6 := if nFields > 5 then mapInsert m5 ("heading") 5 else m5
    if nFields > 6 then mapInsert m6 ("height") 6 else m6
  else cm0

/-- The row's time value (0 when the time column is absent or empty). -/
def vboTimeOf (cm : List (String × ℕ)) (fields : List String) : JsNum :=
  match mapLookup cm ("time") with
  | some ti =>
    if fields.getD ti "" = "" then some 0
    else parseVboTime (fields.getD ti "")
  | none => some 0

/-- The row's km/h speed value (0 when the velocity column is absent or
empty, or fails to parse). -/
def vboSpeedKphOf (cm : List (String × ℕ)) (fields : List String) : ℚ :=
  match mapLookup cm ("velocity") with
  | some vi =>
    if fields.getD vi "" = "" then 0
    else jsParseFloatOr0 (fields.getD vi "")
  | none => 0

/-- The row's normalized heading (absent when the column is missing, empty
or unparseable). -/
def vboHeadingOf (cm : List (String × ℕ)) (fields : List String) : Option ℚ :=
  match mapLookup cm ("heading") with
  | some hi =>
    if fields.getD hi "" = "" then none
    else
      match jsParseFloat (fields.getD hi "") with
      | none => none
      | some h => some (normalizeHeading360 h)
  | none => none

/-- The teleportation-filter decision against the previously accepted
sample. -/
def vboRejected (hav : ℚ → ℚ → ℚ → ℚ → ℚ) (samples : List Sample)
    (t : JsNum) (lat lon : ℚ) : Bool :=
  match samples with
  | prev :: _ =>
    match jsDiv (jsSub t prev.t) (some 1000) with
    | some td => vboTeleportRejects td (hav prev.lat prev.lon lat lon)
    | none => false
  | [] => false

/-- One iteration of `parseVboFile`'s data-row loop, including the one-shot
positional-fallback column assignment, coordinate/speed checks, midnight
wrap and teleportation filter. -/
def vboStep (hav : ℚ → ℚ → ℚ → ℚ → ℚ) (st : ScanState) (l : String) :
    ScanState :=
  let line := l.trim
  -- Skip empty lines and section headers
  if line = "" ∨ line.startsWith ("[") then st
  else
    let fields := jsSplitWs line
    if fields.length < 3 then st
    else
      let fallback : Bool :=
        (mapLookup st.columnMap ("lat")).isNone ||
          (mapLookup st.columnMap ("lon")).isNone
      if fallback ∧ fields.length < 5 then st
      else
        let cm := vboCm st.columnMap fields.length fallback
        let lat := parseVboCoordinate (fields.getD ((mapLookup cm ("lat")).getD 0) "")
        let lon := parseVboCoordinate (fields.getD ((mapLookup cm ("lon")).getD 0) "")
        -- Skip invalid coordinates
        if lat = 0 ∨ lon = 0 ∨ |lat| > 90 ∨ |lon| > 180 then
          { st with columnMap := cm }
        else
          let timeMs := vboTimeOf cm fields
          let baseJs : JsNum :=
            match st.baseTimeMs with
            | none => timeMs
            | some b => b
          let t0 := jsSub timeMs baseJs
          -- Handle midnight wrap
          let t := if jsLt t0 (some 0) then jsAdd t0 (some 86400000) else t0
          let speedKph := vboSpeedKphOf cm fields
          let speedMps := speedKph / 3.6
          -- Sanity check on speed
          if speedMps > 150 then
            { columnMap := cm, samples := st.samples, baseTimeMs := some baseJs }
          else if vboRejected hav st.samples t lat lon then
            { columnMap := cm, samples := st.samples, baseTimeMs := some baseJs }
          else
            { columnMap := cm
            , samples :=
                { t := t, lat := lat, lon := lon, speedMps := speedMps
                , speedMph := speedMps * 2.23694, speedKph := speedKph
                , heading := vboHeadingOf cm fields } :: st.samples
            , baseTimeMs := some baseJs }

/-- Decode a VBO file (source: `parseVboFile`): locate the `[header]` /
`[column names]` / `[data]` markers (last occurrence wins), build the column
map from the synonym table, then run the data-row loop.  The G-force pass
(`calculateAccelerations`/`smoothField`) touches only the omitted auxiliary
field map and is not modelled. -/
def parseVboFile (hav : ℚ → ℚ → ℚ → ℚ → ℚ) (content : String) :
    Except String ParsedData :=
  let lines := jsSplitLines content
  let markers := lines.enum.foldl
    (fun (acc : Option ℕ × Option ℕ × Option ℕ) p =>
      let t := (p.2.trim).toLower
      if t = ("[header]") then (some p.1, acc.2.1, acc.2.2)
      else if t = ("[column names]") then (acc.1, some p.1, acc.2.2)
      else if t = ("[data]") then (acc.1, acc.2.1, some p.1)
      else acc)
    (none, none, none)
  match markers.2.2 with
  | none => Except.error "No [data] section found in VBO file"
  | some dataStart =>
    let columnLine : Option String :=
      match markers.2.1 with
      | some cns =>
        if cns < dataStart then
          ((lines.drop (cns + 1)).take (dataStart - (cns + 1))).find?
            fun l => l.trim.length > 0
        else none
      | none => none
    let columnMap0 : List (String × ℕ) :=
      match columnLine with
      | some cl =>
        ((jsSplitWs cl.trim).enum).foldl
          (fun m p =>
            match KNOWN_COLUMNS (p.2.toLower) with
            | some normalized => mapInsert m normalized p.1
            | none => m)
          []
      | none => []
    let final := (lines.drop (dataStart + 1)).foldl (vboStep hav)
      { columnMap := columnMap0, samples := [], baseTimeMs := none }
    let samples := final.samples.reverse
    if samples.length = 0 then Except.error "No valid GPS data found in VBO file"
    else
      Except.ok { samples := samples
                , duration := ((samples.getLast?).map (·.t)).getD (some 0) }

/-- The samples of a VBO decode result. -/
def parsedSamplesV (r : Except String ParsedData) : List Sample :=
  match r with
  | Except.ok d => d.samples
  | Except.error _ => []

/-- The claimed coordinate invariant on a VBO sample. -/
def coordOkV (s : Sample) : Bool :=
  decide (|s.lat| ≤ 90) && decide (|s.lon| ≤ 180) &&
    decide (s.lat ≠ 0) && decide (s.lon ≠ 0)

/-- The cached-unit law on a VBO sample (here `speedKph` is the native
column value and `speedMps = speedKph / 3.6`, so the law holds exactly in
rational arithmetic). -/
def speedUnitsOkV (s : Sample) : Bool :=
  decide (s.speedKph = s.speedMps * 3.6) &&
    decide (s.speedMph = s.speedMps * 2.23694)

end Vbo

/-! ## Alfano CSV decoder (source: `alfanoParser.ts`) -/

namespace Alfano

/-- Alfano header → internal name synonym table
(source: `COLUMN_MAPPINGS`). -/
def COLUMN_MAPPINGS (k : String) : Option String :=
  if k = ("time") then some ("time")
  else if k = ("timestamp") then some ("time")
  else if k = ("elapsed") then some ("time")
  else if k = ("elapsed time") then some ("time")
  else if k = ("time (s)") then some ("time")
  else if k = ("time (ms)") then some ("time_ms")
  else if k = ("gps_latitude") then some ("lat")
  else if k = ("gps_longitude") then some ("lon")
  else if k = ("latitude") then some ("lat")
  else if k = ("longitude") then some ("lon")
  else if k = ("lat") then some ("lat")
  else if k = ("lon") then some ("lon")
  else if k = ("long") then some ("lon")
  else if k = ("gps_speed") then some ("speed")
  else if k = ("speed") then some ("speed")
  else if k = ("speed (km/h)") then some ("speed")
  else if k = ("speed (kph)") then some ("speed")
  else if k = ("velocity") then some ("speed")
  else if k = ("gps_heading") then some ("heading")
  else if k = ("heading") then some ("heading")
  else if k = ("course") then some ("heading")
  else if k = ("gps_altitude") then some ("altitude")
  else if k = ("altitude") then some ("altitude")
  else if k = ("height") then some ("altitude")
  else if k = ("alt") then some ("altitude")
  else if k = ("latacc") then some ("latG")
  else if k = ("lat acc") then some ("latG")
  else if k = ("lateral acc") then some ("latG")
  else if k = ("lateral acceleration") then some ("latG")
  else if k = ("lat g") then some ("latG")
  else if k = ("lateral g") then some ("latG")
  else if k = ("lonacc") then some ("lonG")
  else if k = ("lon acc") then some ("lonG")
  else if k = ("longitudinal acc") then some ("lonG")
  else if k = ("longitudinal acceleration") then some ("lonG")
  else if k = ("lon g") then some ("lonG")
  else if k = ("longitudinal g") then some ("lonG")
  else if k = ("rpm") then some ("rpm")
  else if k = ("engine rpm") then some ("rpm")
  else if k = ("t1") then some ("temp1")
  else if k = ("t2") then some ("temp2")
  else if k = ("temp1") then some ("temp1")
  else if k = ("temp2") then some ("temp2")
  else if k = ("egt") then some ("egt")
  else if k = ("exhaust") then some ("egt")
  else if k = ("water") then some ("water_temp")
  else if k = ("water temp") then some ("water_temp")
  else if k = ("oil") then some ("oil_temp")
  else if k = ("oil temp") then some ("oil_temp")
  else if k = ("throttle") then some ("throttle")
  else if k = ("tps") then some ("throttle")
  else if k = ("lap") then some ("lap")
  else if k = ("laptime") then some ("laptime")
  else if k = ("lap time") then some ("laptime")
  else if k = ("distance") then some ("distance")
  else if k = ("satellites") then some ("satellites")
  else if k = ("sats") then some ("satellites")
  else none

/-- Quote-aware CSV split on comma or semicolon, trimming each field
(source: the `parseCSVLine` of `alfanoParser.ts`, which always splits on
both delimiters). -/
def parseCSVLine (line : String) : List String :=
  let fin := line.toList.foldl
    (fun (acc : List String × String × Bool) c =>
      if c = '"' then (acc.1, acc.2.1, ¬acc.2.2)
      else if (c = ',' ∨ c = ';') ∧ ¬acc.2.2 then
        (acc.1 ++ [acc.2.1.trim], "", acc.2.2)
      else (acc.1, acc.2.1.push c, acc.2.2))
    ([], "", false)
  fin.1 ++ [fin.2.1.trim]

/-- One metadata pattern `/^word\s*:/i`. -/
def metaMatch (kw : String) (line : String) : Bool :=
  let l := line.toLower
  if l.startsWith kw then
    match (l.drop kw.length).toList.dropWhile Char.isWhitespace with
    | ':' :: _ => true
    | _ => false
  else false

/-- Whether a line matches one of the Alfano metadata patterns
(source: `ALFANO_METADATA_PATTERNS`). -/
def isAlfanoMetadataLine (line : String) : Bool :=
  metaMatch ("driver") line || metaMatch ("track") line ||
  metaMatch ("championship") line || metaMatch ("session") line ||
  metaMatch ("date") line || metaMatch ("kart") line ||
  metaMatch ("engine") line

/-- Count the recognizable column names of a candidate header row and build
its column map (the inner loop of the header search). -/
def headerMatchOf (fields : List String) : ℕ × List (String × ℕ) :=
  fields.enum.foldl
    (fun acc p =>
      match COLUMN_MAPPINGS ((p.2.toLower).trim) with
      | some mapped => (acc.1 + 1, Vbo.mapInsert acc.2 mapped p.1)
      | none => acc)
    (0, [])

/-- The header search over the first 50 lines (source: the first loop of
`parseAlfanoFile`): a row is the header once it has ≥ 2 recognized columns
including a latitude or speed column. -/
def findHeaderLoop (lines : List String) : List ℕ → Option (ℕ × List (String × ℕ))
  | [] => none
  | i :: is =>
    let line := (lines.getD i "").trim
    if line = "" then findHeaderLoop lines is
    else
      let hm := headerMatchOf (parseCSVLine line)
      if hm.1 ≥ 2 ∧ ((Vbo.mapLookup hm.2 ("lat")).isSome ∨
          (Vbo.mapLookup hm.2 ("speed")).isSome) then
        some (i, hm.2)
      else findHeaderLoop lines is

/-- The row's time in ms: the `time (ms)` column wins, otherwise the `time`
column (seconds vs ms disambiguated by magnitude > 100000), otherwise 0. -/
def alfanoTimeOf (cm : List (String × ℕ)) (fields : List String) : ℚ :=
  match Vbo.mapLookup cm ("time_ms") with
  | some i => jsParseFloatOr0 (fields.getD i "")
  | none =>
    match Vbo.mapLookup cm ("time") with
    | some i =>
      match jsParseFloat (fields.getD i "") with
      | some timeVal => if timeVal > 100000 then timeVal else timeVal * 1000
      | none => 0
    | none => 0

/-- The row's km/h speed (assume km/h; 0 when absent or NaN). -/
def alfanoSpeedKphOf (cm : List (String × ℕ)) (fields : List String) : ℚ :=
  match Vbo.mapLookup cm ("speed") with
  | some i => jsParseFloatOr0 (fields.getD i "")
  | none => 0

/-- The row's heading, normalized into `[0, 360)` (the while-loop pair of
the source, in closed form). -/
def alfanoHeadingOf (cm : List (String × ℕ)) (fields : List String) :
    Option ℚ :=
  match Vbo.mapLookup cm ("heading") with
  | some i =>
    match jsParseFloat (fields.getD i "") with
    | none => none
    | some h => some (Vbo.normalizeHeading360 h)
  | none => none

/-- The teleportation-filter decision against the previous accepted
sample. -/
def alfanoRejectedB (hav : ℚ → ℚ → ℚ → ℚ → ℚ) (samples : List GpsSample)
    (t lat lon : ℚ) : Bool :=
  match samples with
  | prev :: _ =>
    alfanoTeleportRejects ((t - prev.t) / 1000) (hav prev.lat prev.lon lat lon)
  | [] => false

/-- Loop state of `parseAlfanoFile`'s data-row loop. -/
structure ScanState where
  samples : List GpsSample
  baseTimeMs : Option ℚ
deriving DecidableEq, Repr

/-- The row's latitude: NaN when no latitude column is mapped
(source: line 290 of `parseAlfanoFile`). -/
def alfanoLatOf (cm : List (String × ℕ)) (fields : List String) : Option ℚ :=
  match Vbo.mapLookup cm ("lat") with
  | some i => jsParseFloat (fields.getD i "")
  | none => none

/-- The row's longitude: NaN when no longitude column is mapped. -/
def alfanoLonOf (cm : List (String × ℕ)) (fields : List String) : Option ℚ :=
  match Vbo.mapLookup cm ("lon") with
  | some i => jsParseFloat (fields.getD i "")
  | none => none

/-- The session-relative timestamp with the midnight wrap applied. -/
def alfanoTOf (timeMs base : ℚ) : ℚ :=
  if timeMs - base < 0 then timeMs - base + 86400000 else timeMs - base

/-- The tail of `parseAlfanoFile`'s loop body once the coordinates have
passed validation: time bookkeeping, speed sanity check, teleport filter
and the push. -/
def alfanoAccept (hav : ℚ → ℚ → ℚ → ℚ → ℚ) (cm : List (String × ℕ))
    (st : ScanState) (fields : List String) (lat lon : ℚ) : ScanState :=
  let timeMs := alfanoTimeOf cm fields
  let base : ℚ :=
    match st.baseTimeMs with
    | none => timeMs
    | some b => b
  let t := alfanoTOf timeMs base
  let speedKph := alfanoSpeedKphOf cm fields
  -- Sanity check on speed
  if speedKph / 3.6 > 150 then { samples := st.samples, baseTimeMs := some base }
  else if alfanoRejectedB hav st.samples t lat lon then
    { samples := st.samples, baseTimeMs := some base }
  else
    { samples :=
        { t := t, lat := lat, lon := lon, speedMps := speedKph / 3.6
        , speedMph := speedKph / 3.6 * 2.23694, speedKph := speedKph
        , heading := alfanoHeadingOf cm fields } :: st.samples
    , baseTimeMs := some base }

/-- One iteration of `parseAlfanoFile`'s data-row loop. -/
def alfanoStep (hav : ℚ → ℚ → ℚ → ℚ → ℚ) (cm : List (String × ℕ))
    (st : ScanState) (l : String) : ScanState :=
  if l.trim = "" then st
  -- Skip metadata rows that might appear after the header
  else if isAlfanoMetadataLine l.trim then st
  else if (parseCSVLine l.trim).length < 3 then st
  else
    match alfanoLatOf cm (parseCSVLine l.trim),
        alfanoLonOf cm (parseCSVLine l.trim) with
    | some lat, some lon =>
      -- Skip rows without valid coordinates
      if lat = 0 ∨ lon = 0 then st
      else if |lat| > 90 ∨ |lon| > 180 then st
      else alfanoAccept hav cm st (parseCSVLine l.trim) lat lon
    | _, _ => st

/-- Decode an Alfano CSV file (source: `parseAlfanoFile`).  The G-force
pass touches only the omitted auxiliary field map and is not modelled. -/
def parseAlfanoFile (hav : ℚ → ℚ → ℚ → ℚ → ℚ) (content : String) :
    Except String ParsedData :=
  let lines := jsSplitLines content
  match findHeaderLoop lines (List.range (min lines.length 50)) with
  | none => Except.error "Could not find valid header row in Alfano CSV"
  | some hdr =>
    let final := (lines.drop (hdr.1 + 1)).foldl (alfanoStep hav hdr.2)
      { samples := [], baseTimeMs := none }
    let samples := final.samples.reverse
    if samples.length = 0 then
      Except.error "No valid GPS data found in Alfano file"
    else
      Except.ok { samples := samples
                , duration := ((samples.getLast?).map (·.t)).getD 0 }

end Alfano

/-! ## AiM CSV decoder (source: `src/lib/aimParser.ts`) -/

namespace Aim

/-- Headers that indicate AiM format (source: `AIM_HEADER_INDICATORS`). -/
def AIM_HEADER_INDICATORS : List String :=
  [ ("gps_speed"), ("gps_lat"), ("gps_long"), ("gps_latitude")
  , ("gps_longitude"), ("acc_lat"), ("acc_long"), ("lateral g")
  , ("longitudinal g"), ("t_h2o"), ("t_egt"), ("gps_nsat") ]

/-- Quote-aware CSV split on a single delimiter, trimming each field
(source: the `parseCSVLine` of `aimParser.ts`). -/
def parseCSVLine (delim : Char) (line : String) : List String :=
  let fin := line.toList.foldl
    (fun (acc : List String × String × Bool) c =>
      if c = '"' then (acc.1, acc.2.1, ¬acc.2.2)
      else if c = delim ∧ ¬acc.2.2 then
        (acc.1 ++ [acc.2.1.trim], "", acc.2.2)
      else (acc.1, acc.2.1.push c, acc.2.2))
    ([], "", false)
  fin.1 ++ [fin.2.1.trim]

/-- Delimiter detection by character frequency on the header line
(source: `detectDelimiter`). -/
def detectDelimiter (line : String) : Char :=
  let commaCount := (line.toList.filter (· = ',')).length
  let semicolonCount := (line.toList.filter (· = ';')).length
  let tabCount := (line.toList.filter (· = '\t')).length
  if tabCount > commaCount ∧ tabCount > semicolonCount then '\t'
  else if semicolonCount > commaCount then ';'
  else ','

/-- How many AiM header indicators a (lower-cased) line contains. -/
def headerMatches (lineLower : String) : ℕ :=
  (AIM_HEADER_INDICATORS.filter (fun ind => jsIncludes lineLower ind)).length

/-- The header-row test of `parseAimFile`: ≥ 2 AiM indicators, or a `time`
column next to a `gps`/`acc` one. -/
def isHeaderLine (lineLower : String) : Bool :=
  decide (headerMatches lineLower ≥ 2) ||
    (jsIncludes lineLower ("time") &&
      (jsIncludes lineLower ("gps") || jsIncludes lineLower ("acc")))

/-- The header search over the first 10 (non-blank) lines. -/
def findAimHeader (lines : List String) : List ℕ → Option ℕ
  | [] => none
  | i :: is =>
    if isHeaderLine ((lines.getD i "").toLower) then some i
    else findAimHeader lines is

/-- Collapse each maximal whitespace run to a single `_`
(JS `replace(/\s+/g, un)`). -/
def collapseWsAux : Bool → List Char → List Char
  | _, [] => []
  | prevWs, c :: rest =>
    if c.isWhitespace then
      if prevWs then collapseWsAux true rest
      else '_' :: collapseWsAux true rest
    else c :: collapseWsAux false rest

/-- Replace the first occurrence of `pat` (JS non-global
`String.prototype.replace`). -/
def replaceFirstAux (pat repl : List Char) : List Char → List Char
  | [] => []
  | c :: rest =>
    if charsStartsWith (c :: rest) pat then repl ++ (c :: rest).drop pat.length
    else c :: replaceFirstAux pat repl rest

/-- Header normalization of `parseAimFile`: whitespace runs to `_`, then
`gps_latitude → gps_lat` and `gps_longitude → gps_long`. -/
def normalizeHeader (h : String) : String :=
  List.asString (replaceFirstAux ("gps_longitude").toList ("gps_long").toList
    (replaceFirstAux ("gps_latitude").toList ("gps_lat").toList
      (collapseWsAux false h.toList)))

/-- The normalized header → column-index map (later columns win). -/
def buildColMap (headers : List String) : List (String × ℕ) :=
  headers.enum.foldl (fun m p => Vbo.mapInsert m (normalizeHeader p.2) p.1) []

/-- A JS `??` fallback chain over column-map keys. -/
def colOf (m : List (String × ℕ)) : List String → Option ℕ
  | [] => none
  | k :: rest =>
    match Vbo.mapLookup m k with
    | some i => some i
    | none => colOf m rest

/-- The resolved column indices `parseAimFile` reads GPS data from. -/
structure Cols where
  timeCol : Option ℕ
  latCol : ℕ
  lonCol : ℕ
  speedCol : Option ℕ
  headingCol : Option ℕ
deriving DecidableEq, Repr

/-- Loop state of `parseAimFile`'s data-row loop: the accepted samples and
the mutable time/speed unit-detection state. -/
structure ScanState where
  samples : List GpsSample
  baseTime : Option ℚ
  timeMultiplier : ℚ
  speedMultiplier : ℚ
deriving DecidableEq, Repr

/-- The time-parsing block: yields the row's `timeMs` and the updated
`baseTime` and `timeMultiplier` (unit sniffed from the first valid time). -/
def aimTimeUpdate (c : Option ℕ) (values : List String) (st : ScanState) :
    ℚ × Option ℚ × ℚ :=
  match c with
  | none => (0, st.baseTime, st.timeMultiplier)
  | some tc =>
    match jsParseFloat (values.getD tc "") with
    | none => (0, st.baseTime, st.timeMultiplier)
    | some timeVal =>
      match st.baseTime with
      | none =>
        let mult : ℚ := if timeVal < 10000 then 1000 else 1
        ((timeVal - timeVal) * mult, some timeVal, mult)
      | some b => ((timeVal - b) * st.timeMultiplier, some b, st.timeMultiplier)

/-- The speed-parsing block: yields the row's `speedMps` and the updated
`speedMultiplier` (unit sniffed while no sample is accepted yet). -/
def aimSpeedUpdate (c : Option ℕ) (values : List String)
    (samplesEmpty : Bool) (mult : ℚ) : ℚ × ℚ :=
  match c with
  | none => (0, mult)
  | some sc =>
    match jsParseFloat (values.getD sc "") with
    | none => (0, mult)
    | some v =>
      let m : ℚ :=
        if samplesEmpty = true ∧ v > 50 then 1 / 3.6
        else if samplesEmpty = true ∧ v > 0 ∧ v < 30 then 1
        else mult
      (v * m, m)

/-- The row's heading: raw, `undefined` on NaN (no normalization). -/
def aimHeadingOf (c : Option ℕ) (values : List String) : Option ℚ :=
  match c with
  | none => none
  | some i => jsParseFloat (values.getD i "")

/-- The teleportation-filter decision against the previous accepted
sample. -/
def aimRejectedB (hav : ℚ → ℚ → ℚ → ℚ → ℚ) (samples : List GpsSample)
    (timeMs lat lon : ℚ) : Bool :=
  match samples with
  | prev :: _ =>
    aimTeleportRejects ((timeMs - prev.t) / 1000)
      (hav prev.lat prev.lon lat lon)
  | [] => false

/-- The tail of `parseAimFile`'s loop body once the coordinates have passed
validation: unit sniffing, teleport filter and the push.  Note the unit
state is updated even when the teleport filter drops the row. -/
def aimAccept (hav : ℚ → ℚ → ℚ → ℚ → ℚ) (cols : Cols) (st : ScanState)
    (values : List String) (lat lon : ℚ) : ScanState :=
  let tu := aimTimeUpdate cols.timeCol values st
  let su := aimSpeedUpdate cols.speedCol values st.samples.isEmpty
    st.speedMultiplier
  if aimRejectedB hav st.samples tu.1 lat lon then
    { samples := st.samples, baseTime := tu.2.1, timeMultiplier := tu.2.2
    , speedMultiplier := su.2 }
  else
    { samples :=
        { t := tu.1, lat := lat, lon := lon, speedMps := su.1
        , speedMph := su.1 * 2.23694, speedKph := su.1 * 3.6
        , heading := aimHeadingOf cols.headingCol values } :: st.samples
    , baseTime := tu.2.1, timeMultiplier := tu.2.2, speedMultiplier := su.2 }

/-- One iteration of `parseAimFile`'s data-row loop. -/
def aimStep (hav : ℚ → ℚ → ℚ → ℚ → ℚ) (cols : Cols) (delim : Char)
    (st : ScanState) (line : String) : ScanState :=
  if (parseCSVLine delim line).length < max cols.latCol cols.lonCol + 1 then st
  else
    match jsParseFloat ((parseCSVLine delim line).getD cols.latCol ""),
        jsParseFloat ((parseCSVLine delim line).getD cols.lonCol "") with
    | some lat, some lon =>
      -- Skip invalid coordinates
      if lat = 0 ∨ lon = 0 then st
      else if lat < -90 ∨ lat > 90 ∨ lon < -180 ∨ lon > 180 then st
      else aimAccept hav cols st (parseCSVLine delim line) lat lon
    | _, _ => st

/-- Decode an AiM CSV file (source: `parseAimFile`).  The G-force pass
touches only the omitted auxiliary field map and is not modelled. -/
def parseAimFile (hav : ℚ → ℚ → ℚ → ℚ → ℚ) (content : String) :
    Except String ParsedData :=
  let lines := (jsSplitLines content).filter (fun l => decide (l.trim ≠ ""))
  if lines.length < 2 then
    Except.error "AiM CSV file is empty or has no data"
  else
    match findAimHeader lines (List.range (min 10 lines.length)) with
    | none => Except.error "Could not find AiM CSV header row"
    | some hi =>
      let delim := detectDelimiter (lines.getD hi "")
      let m := buildColMap
        ((parseCSVLine delim (lines.getD hi "")).map
          (fun h => (h.toLower).trim))
      match colOf m [("gps_lat"), ("gps_latitude"), ("latitude"), ("lat")],
          colOf m [("gps_long"), ("gps_longitude"), ("longitude"), ("lon")] with
      | some latC, some lonC =>
        let cols : Cols :=
          { timeCol := colOf m [("time"), ("t")]
          , latCol := latC, lonCol := lonC
          , speedCol := colOf m [("gps_speed"), ("speed")]
          , headingCol := colOf m
              [("gps_heading"), ("gps_course"), ("heading"), ("course")] }
        let final := (lines.drop (hi + 1)).foldl (aimStep hav cols delim)
          { samples := [], baseTime := none, timeMultiplier := 1000
          , speedMultiplier := 1 / 3.6 }
        let samples := final.samples.reverse
        if samples.length = 0 then
          Except.error "No valid GPS samples found in AiM file"
        else
          Except.ok { samples := samples
                    , duration := ((samples.getLast?).map (·.t)).getD 0 }
      | _, _ =>
        Except.error "AiM CSV missing required GPS coordinates (GPS_Lat, GPS_Long)"

end Aim

/-! ## Theorems -/

/-- C9: if both path endpoints are collinear with the timing line
(`sideOfLine = 0` for both), `segmentIntersection` reports no intersection. -/
theorem segmentIntersection_collinear_none (p1 p2 a b : Point)
    (h1 : sideOfLine p1 a b = 0) (h2 : sideOfLine p2 a b = 0) :
    segmentIntersection p1 p2 a b = none := by
  unfold segmentIntersection
  simp only [h1, h2]
  norm_num

/-- Witness for C9 at a concrete collinear configuration: the path
(0,0)–(1,0) and the line (2,0)–(3,0) all lie on the x-axis. -/
theorem segmentIntersection_collinear_none_witness :
    sideOfLine { x := 0, y := 0 } { x := 2, y := 0 } { x := 3, y := 0 } = 0 ∧
    sideOfLine { x := 1, y := 0 } { x := 2, y := 0 } { x := 3, y := 0 } = 0 ∧
    segmentIntersection { x := 0, y := 0 } { x := 1, y := 0 }
      { x := 2, y := 0 } { x := 3, y := 0 } = none :=
  ⟨by with_unfolding_all decide, by with_unfolding_all decide,
    segmentIntersection_collinear_none _ _ _ _
      (by with_unfolding_all decide) (by with_unfolding_all decide)⟩

theorem foldMinQ_le (xs : List ℚ) : ∀ x : ℚ, ∀ y ∈ x :: xs, foldMinQ x xs ≤ y := by
  induction xs with
  | nil =>
    intro x y hy
    rw [List.mem_singleton] at hy
    subst hy
    exact le_refl _
  | cons v vs ih =>
    intro x y hy
    have hstep : foldMinQ x (v :: vs) = foldMinQ (if v < x then v else x) vs := rfl
    have hseed : foldMinQ (if v < x then v else x) vs ≤ (if v < x then v else x) :=
      ih _ _ (List.mem_cons_self _ _)
    rcases List.mem_cons.mp hy with rfl | hy'
    · rw [hstep]
      refine le_trans hseed ?_
      split
      · exact le_of_lt (by assumption)
      · exact le_refl _
    · rcases List.mem_cons.mp hy' with rfl | hmem
      · rw [hstep]
        refine le_trans hseed ?_
        split
        · exact le_refl _
        · exact le_of_not_lt (by assumption)
      · rw [hstep]
        exact ih _ _ (List.mem_cons_of_mem _ hmem)

theorem foldMinQ_mem (xs : List ℚ) : ∀ x : ℚ, foldMinQ x xs ∈ x :: xs := by
  induction xs with
  | nil => intro x; simp [foldMinQ]
  | cons v vs ih =>
    intro x
    have hstep : foldMinQ x (v :: vs) = foldMinQ (if v < x then v else x) vs := rfl
    rw [hstep]
    have := ih (if v < x then v else x)
    rcases List.mem_cons.mp this with heq | hmem
    · rw [heq]
      split
      · exact List.mem_cons_of_mem _ (List.mem_cons_self _ _)
      · exact List.mem_cons_self _ _
    · exact List.mem_cons_of_mem _ (List.mem_cons_of_mem _ hmem)

theorem mkLap_startTime (samples : List GpsSample) (hs : Bool)
    (c2 c3 : List LineCrossing) (i : ℕ) (a b : LapCrossing) :
    (mkLap samples hs c2 c3 i a b).startTime = a.crossingTime := rfl

theorem mkLap_endTime (samples : List GpsSample) (hs : Bool)
    (c2 c3 : List LineCrossing) (i : ℕ) (a b : LapCrossing) :
    (mkLap samples hs c2 c3 i a b).endTime = b.crossingTime := rfl

theorem mkLap_lapNumber (samples : List GpsSample) (hs : Bool)
    (c2 c3 : List LineCrossing) (i : ℕ) (a b : LapCrossing) :
    (mkLap samples hs c2 c3 i a b).lapNumber = i + 1 := rfl

theorem mkLap_sectors_isSome (samples : List GpsSample) (hs : Bool)
    (c2 c3 : List LineCrossing) (i : ℕ) (a b : LapCrossing) :
    ((mkLap samples hs c2 c3 i a b).sectors).isSome = hs := by
  show (lapSectors hs c2 c3 a b).isSome = hs
  cases hs with
  | false => rfl
  | true =>
    unfold lapSectors
    rw [if_pos rfl]
    dsimp only
    split
    · split <;> rfl
    · rfl
    · rfl

theorem mkLap_sectors_shape (samples : List GpsSample) (hs : Bool)
    (c2 c3 : List LineCrossing) (i : ℕ) (a b : LapCrossing) :
    sectorsShapeOk (mkLap samples hs c2 c3 i a b).sectors = true := by
  show sectorsShapeOk (lapSectors hs c2 c3 a b) = true
  cases hs with
  | false => rfl
  | true =>
    unfold lapSectors
    rw [if_pos rfl]
    dsimp only
    split
    · split <;> simp [sectorsShapeOk]
    · simp [sectorsShapeOk]
    · simp [sectorsShapeOk]

theorem lapsFromCrossings_all (samples : List GpsSample) (hs : Bool)
    (c2 c3 : List LineCrossing) (P : Lap → Bool)
    (hP : ∀ i a b, P (mkLap samples hs c2 c3 i a b) = true) :
    ∀ cs : List LapCrossing, ∀ i : ℕ,
      (lapsFromCrossings samples hs c2 c3 i cs).all P = true := by
  intro cs
  induction cs with
  | nil => intro i; rfl
  | cons a tl ih =>
    intro i
    cases tl with
    | nil => rfl
    | cons b rest =>
      show ((mkLap samples hs c2 c3 i a b) ::
        lapsFromCrossings samples hs c2 c3 (i + 1) (b :: rest)).all P = true
      rw [List.all_cons, hP, ih (i + 1)]
      rfl

theorem lapsFromCrossings_chain (samples : List GpsSample) (hs : Bool)
    (c2 c3 : List LineCrossing) :
    ∀ cs : List LapCrossing, ∀ i : ℕ,
      List.Chain' (fun p q => p.endTime = q.startTime ∧ p.lapNumber + 1 = q.lapNumber)
        (lapsFromCrossings samples hs c2 c3 i cs) := by
  intro cs
  induction cs with
  | nil => intro i; exact List.chain'_nil
  | cons a tl ih =>
    intro i
    cases tl with
    | nil => exact List.chain'_nil
    | cons b rest =>
      show List.Chain' _ ((mkLap samples hs c2 c3 i a b) ::
        lapsFromCrossings samples hs c2 c3 (i + 1) (b :: rest))
      rw [List.chain'_cons']
      refine ⟨?_, ih (i + 1)⟩
      intro y hy
      cases rest with
      | nil => simp [lapsFromCrossings] at hy
      | cons c rest' =>
        have heq : mkLap samples hs c2 c3 (i + 1) b c = y := by
          simpa [lapsFromCrossings] using hy
        subst heq
        exact ⟨rfl, rfl⟩

theorem lapsFromCrossings_map_lapNumber (samples : List GpsSample) (hs : Bool)
    (c2 c3 : List LineCrossing) :
    ∀ cs : List LapCrossing, ∀ i : ℕ,
      (lapsFromCrossings samples hs c2 c3 i cs).map (·.lapNumber) =
        List.range' (i + 1) (lapsFromCrossings samples hs c2 c3 i cs).length := by
  intro cs
  induction cs with
  | nil => intro i; rfl
  | cons a tl ih =>
    intro i
    cases tl with
    | nil => rfl
    | cons b rest =>
      show ((mkLap samples hs c2 c3 i a b) ::
          lapsFromCrossings samples hs c2 c3 (i + 1) (b :: rest)).map (·.lapNumber) =
        List.range' (i + 1) ((mkLap samples hs c2 c3 i a b) ::
          lapsFromCrossings samples hs c2 c3 (i + 1) (b :: rest)).length
      rw [List.map_cons, ih (i + 1)]
      rfl

/-- C4: laps returned by `calculateLaps` tile the crossing sequence: each
lap's `endTime` is the next lap's `startTime`, and lap numbers are 1-based
and sequential. -/
theorem calculateLaps_consecutive_laps (cosv : ℚ → ℚ)
    (samples : List GpsSample) (course : Course) :
    List.Chain' (fun p q => p.endTime = q.startTime ∧ p.lapNumber + 1 = q.lapNumber)
      (calculateLaps cosv samples course) ∧
    (calculateLaps cosv samples course).map (·.lapNumber) =
      List.range' 1 (calculateLaps cosv samples course).length := by
  unfold calculateLaps
  split
  · exact ⟨List.chain'_nil, rfl⟩
  · dsimp only
    exact ⟨lapsFromCrossings_chain _ _ _ _ _ 0,
      lapsFromCrossings_map_lapNumber _ _ _ _ _ 0⟩

/-- C1 (amended): every lap's `sectors` field is present exactly when the
course has both sector lines, and its shape is fully populated, `s1`-only,
or entirely empty — `s2`/`s3` are never populated without `s1`. -/
theorem calculateLaps_sectors_shape (cosv : ℚ → ℚ)
    (samples : List GpsSample) (course : Course) :
    (calculateLaps cosv samples course).all
      (fun lap => decide (lap.sectors.isSome = courseHasSectors course) &&
        sectorsShapeOk lap.sectors) = true := by
  unfold calculateLaps
  split
  · rfl
  · dsimp only
    apply lapsFromCrossings_all
    intro i a b
    rw [Bool.and_eq_true, decide_eq_true_eq]
    exact ⟨mkLap_sectors_isSome _ _ _ _ _ _ _, mkLap_sectors_shape _ _ _ _ _ _ _⟩

/-- C1 (counterexample): on the concrete stream `samplesC1` and course
`courseC1` (both sector lines configured, sector 2 crossed but not
sector 3), `calculateLaps` returns a lap whose `sectors` is populated with
only `s1` defined — a partially populated sectors object, refuting the
claim that `sectors` is always entirely undefined or fully populated. -/
theorem calculateLaps_partial_sectors_cx :
    (calculateLaps cosOne samplesC1 courseC1).map (·.sectors) =
      [some { s1 := some 2000, s2 := none, s3 := none }] ∧
    (calculateLaps cosOne samplesC1 courseC1).all
      (sectorsFullOrAbsent courseC1) = false :=
  ⟨by with_unfolding_all rfl, by with_unfolding_all rfl⟩

/-- C5 (counterexample): on a lap list whose recorded sector times are not
consistent with its lap time, `calculateOptimalLap`'s result violates
`optimalTimeMs ≤ min lapTimeMs over full-sector laps` (here the only
full-sector lap has lapTimeMs 1000 but optimalTimeMs is 6000). -/
theorem calculateOptimalLap_bound_cx :
    lapHasAllSectors lapC5 = true ∧
    (calculateOptimalLap [lapC5]).map
      (fun r => decide (r.optimalTimeMs ≤ lapC5.lapTimeMs)) = some false :=
  ⟨by with_unfolding_all rfl, by with_unfolding_all rfl⟩

/-- C5 (amended): for lap lists in which every full-sector lap's sector
times sum to its lap time (true of laps produced by `calculateLaps`),
`calculateOptimalLap` returns `optimalTimeMs = bestS1 + bestS2 + bestS3`,
each best sector bounds that sector's time on every full-sector lap, and
`optimalTimeMs` is at most every full-sector lap's `lapTimeMs`. -/
theorem calculateOptimalLap_best_sectors (laps : List Lap)
    (hsum : ∀ lap ∈ laps, lapHasAllSectors lap = true →
      s1Of lap + s2Of lap + s3Of lap = lap.lapTimeMs) :
    ∀ r, calculateOptimalLap laps = some r →
      r.optimalTimeMs = r.bestS1 + r.bestS2 + r.bestS3 ∧
      ∀ lap ∈ laps, lapHasAllSectors lap = true →
        r.bestS1 ≤ s1Of lap ∧ r.bestS2 ≤ s2Of lap ∧ r.bestS3 ≤ s3Of lap ∧
        r.optimalTimeMs ≤ lap.lapTimeMs := by
  intro r hr
  unfold calculateOptimalLap at hr
  rcases hfilter : laps.filter lapHasAllSectors with _ | ⟨l0, ls⟩
  · rw [hfilter] at hr
    cases hr
  · rw [hfilter] at hr
    dsimp only at hr
    rw [Option.some_inj] at hr
    subst hr
    refine ⟨rfl, ?_⟩
    intro lap hlap hfull
    have hmem : lap ∈ l0 :: ls := by
      rw [← hfilter]
      exact List.mem_filter.mpr ⟨hlap, hfull⟩
    have h1 : foldMinQ (s1Of l0) (ls.map s1Of) ≤ s1Of lap := by
      apply foldMinQ_le
      rcases List.mem_cons.mp hmem with rfl | hm
      · exact List.mem_cons_self _ _
      · exact List.mem_cons_of_mem _ (List.mem_map_of_mem _ hm)
    have h2 : foldMinQ (s2Of l0) (ls.map s2Of) ≤ s2Of lap := by
      apply foldMinQ_le
      rcases List.mem_cons.mp hmem with rfl | hm
      · exact List.mem_cons_self _ _
      · exact List.mem_cons_of_mem _ (List.mem_map_of_mem _ hm)
    have h3 : foldMinQ (s3Of l0) (ls.map s3Of) ≤ s3Of lap := by
      apply foldMinQ_le
      rcases List.mem_cons.mp hmem with rfl | hm
      · exact List.mem_cons_self _ _
      · exact List.mem_cons_of_mem _ (List.mem_map_of_mem _ hm)
    refine ⟨h1, h2, h3, ?_⟩
    have := hsum lap hlap hfull
    calc foldMinQ (s1Of l0) (ls.map s1Of) + foldMinQ (s2Of l0) (ls.map s2Of) +
          foldMinQ (s3Of l0) (ls.map s3Of)
        ≤ s1Of lap + s2Of lap + s3Of lap := by linarith
      _ = lap.lapTimeMs := this

/-- Witness for the amended C5 on the concrete consistent list `lapsC5w`:
the optimal time is the sum of the best sectors and bounds the full-sector
lap time 4500. -/
theorem calculateOptimalLap_best_sectors_witness :
    resC5w.optimalTimeMs = resC5w.bestS1 + resC5w.bestS2 + resC5w.bestS3 ∧
    resC5w.optimalTimeMs ≤ lapBw.lapTimeMs := by
  have hsum : ∀ lap ∈ lapsC5w, lapHasAllSectors lap = true →
      s1Of lap + s2Of lap + s3Of lap = lap.lapTimeMs := by
    intro lap hlap _
    rcases List.mem_cons.mp hlap with rfl | h2
    · with_unfolding_all rfl
    · rcases List.mem_cons.mp h2 with rfl | h3
      · with_unfolding_all rfl
      · cases h3
  have h := calculateOptimalLap_best_sectors lapsC5w hsum resC5w
    (by with_unfolding_all rfl)
  refine ⟨h.1, ?_⟩
  have h2 := h.2 lapBw (List.mem_cons_of_mem _ (List.mem_cons_self _ _)) rfl
  exact h2.2.2.2

/-- C10: `calculateOptimalLap` returns `none` exactly when no input lap has
all three sector times; on success, `deltaToFastest` is the minimum
`lapTimeMs` over all input laps minus `optimalTimeMs`, unclamped — and it
can indeed be negative. -/
theorem calculateOptimalLap_none_iff_delta (laps : List Lap) :
    (calculateOptimalLap laps = none ↔
      laps.all (fun l => !lapHasAllSectors l) = true) ∧
    (∀ r, calculateOptimalLap laps = some r →
      r.deltaToFastest = fastestLapMsOf laps - r.optimalTimeMs ∧
      ∀ lap ∈ laps, fastestLapMsOf laps ≤ lap.lapTimeMs) ∧
    ∃ badLaps : List Lap, ∃ rneg : OptimalLapResult,
      calculateOptimalLap badLaps = some rneg ∧ rneg.deltaToFastest < 0 := by
  refine ⟨?_, ?_, ?_⟩
  · unfold calculateOptimalLap
    rcases hfilter : laps.filter lapHasAllSectors with _ | ⟨l0, ls⟩
    · dsimp only
      simp only [List.all_eq_true, Bool.not_eq_true']
      constructor
      · intro _ l hl
        cases hcase : lapHasAllSectors l with
        | false => rfl
        | true =>
          have hmem : l ∈ laps.filter lapHasAllSectors :=
            List.mem_filter.mpr ⟨hl, hcase⟩
          rw [hfilter] at hmem
          cases hmem
      · intro _
        trivial
    · dsimp only
      constructor
      · intro h; cases h
      · intro hall
        have hl0 : l0 ∈ laps.filter lapHasAllSectors := by
          rw [hfilter]; exact List.mem_cons_self _ _
        have hmem := List.mem_filter.mp hl0
        rw [List.all_eq_true] at hall
        have hneg := hall l0 hmem.1
        rw [hmem.2] at hneg
        cases hneg
  · intro r hr
    unfold calculateOptimalLap at hr
    rcases hfilter : laps.filter lapHasAllSectors with _ | ⟨l0, ls⟩
    · rw [hfilter] at hr
      cases hr
    · rw [hfilter] at hr
      dsimp only at hr
      rw [Option.some_inj] at hr
      subst hr
      refine ⟨rfl, ?_⟩
      intro lap hlap
      have hne : laps ≠ [] := by
        intro h
        rw [h] at hlap
        cases hlap
      rcases laps with _ | ⟨t0, ts⟩
      · cases hlap
      · show foldMinQ t0.lapTimeMs (ts.map (·.lapTimeMs)) ≤ lap.lapTimeMs
        apply foldMinQ_le
        rcases List.mem_cons.mp hlap with rfl | hm
        · exact List.mem_cons_self _ _
        · exact List.mem_cons_of_mem _ (List.mem_map_of_mem _ hm)
  · refine ⟨[lapC5],
      { optimalTimeMs := 6000, bestS1 := 2000, bestS2 := 2000, bestS3 := 2000
      , deltaToFastest := -5000 }, by with_unfolding_all rfl,
      by with_unfolding_all decide⟩

/-- Witness for C10 at concrete inputs: the empty lap list yields `none`,
and on `lapsC5w` the returned delta is the fastest lap time minus the
optimal time. -/
theorem calculateOptimalLap_none_iff_delta_witness :
    calculateOptimalLap [] = none ∧
    resC5w.deltaToFastest = fastestLapMsOf lapsC5w - resC5w.optimalTimeMs := by
  have h1 := (calculateOptimalLap_none_iff_delta []).1.mpr rfl
  have h2 := (calculateOptimalLap_none_iff_delta lapsC5w).2.1 resC5w
    (by with_unfolding_all rfl)
  exact ⟨h1, h2.1⟩

theorem replaceIfMoreExtreme_length (revEvents : List SpeedEvent)
    (newEvent : SpeedEvent) (ty : ExtremumType) (sp : ℚ) :
    ((replaceIfMoreExtreme revEvents newEvent ty sp).1).length =
      revEvents.length := by
  unfold replaceIfMoreExtreme
  rcases revEvents with _ | ⟨e, older⟩
  · rfl
  · dsimp only
    split <;> rfl

theorem findStep_inv (samples : List GpsSample) (smoothed : List ℚ)
    (opts : SpeedEventOptions) (i : ℕ) (st : SEState) (h : SEInv st) :
    SEInv (findStep samples smoothed opts i st) := by
  unfold findStep
  dsimp only
  -- the trailing lastDerivSign update does not affect the invariant
  have hkeep : ∀ s : SEState, SEInv s →
      SEInv (if signOf (smoothed.getD i 0 - smoothed.getD (i - 1) 0) ≠ DerivSign.zero
        then { s with lastDerivSign := signOf (smoothed.getD i 0 - smoothed.getD (i - 1) 0) }
        else s) := by
    intro s hs
    split
    · exact hs
    · exact hs
  apply hkeep
  split
  next hcond =>
    generalize hcty : (if st.lastDerivSign = DerivSign.pos then ExtremumType.peak
      else ExtremumType.valley) = cty
    split
    next hcheck =>
      split
      next htc => exact h
      next htc =>
        split
        next hpush =>
          -- push branch: the new event alternates with the previous head
          rw [Bool.and_eq_true] at hpush
          constructor
          · rw [List.chain'_cons']
            refine ⟨?_, h.1⟩
            intro y hy
            have hlast := h.2 y hy
            have halt := hpush.2
            rcases hty : st.lastExtremumType with _ | ty
            · rw [hty] at hlast
              cases hlast
            · rw [hty] at hlast
              rw [Option.some_inj] at hlast
              rw [hty] at halt
              simp only [decide_eq_true_eq] at halt
              show cty ≠ y.type
              intro hcontra
              apply halt
              rw [hlast, hcontra]
          · intro e he
            rw [List.head?_cons, Option.some_inj] at he
            rw [← he]
        next hnpush =>
          split
          next hrep =>
            -- replacement branch
            rw [Bool.and_eq_true, Bool.not_eq_true'] at hrep
            split
            next hreplaced =>
              -- a replacement happened: revEvents is nonempty
              rcases hev : st.revEvents with _ | ⟨lastEvent, older⟩
              · rw [hev] at hreplaced
                simp [replaceIfMoreExtreme] at hreplaced
              · have hlast := h.2 lastEvent (by rw [hev, List.head?_cons])
                rcases hty : st.lastExtremumType with _ | ty
                · rw [hty] at hlast
                  cases hlast
                · rw [hty] at hlast
                  rw [Option.some_inj] at hlast
                  have htyeq : ty = cty := by
                    have halt := hrep.2
                    rw [hty] at halt
                    simpa using halt
                  -- compute the replacement result
                  unfold replaceIfMoreExtreme
                  dsimp only
                  split
                  · constructor
                    · rw [List.chain'_cons']
                      have hchain := h.1
                      rw [hev, List.chain'_cons'] at hchain
                      refine ⟨?_, hchain.2⟩
                      intro y hy
                      have hne := hchain.1 y hy
                      show cty ≠ y.type
                      rw [← htyeq, hlast]
                      exact hne
                    · intro e he
                      rw [List.head?_cons, Option.some_inj] at he
                      rw [← he, htyeq]
                  · constructor
                    · have hchain := h.1
                      rw [hev] at hchain
                      exact hchain
                    · intro e he
                      rw [List.head?_cons, Option.some_inj] at he
                      rw [← he, hlast]
            next => exact h
          next => exact h
    next => exact h
  next => exact h

theorem findLoop_inv (samples : List GpsSample) (smoothed : List ℚ)
    (opts : SpeedEventOptions) :
    ∀ (is : List ℕ) (st : SEState), SEInv st →
      SEInv (findLoop samples smoothed opts is st) := by
  intro is
  induction is with
  | nil => intro st h; exact h
  | cons i is ih =>
    intro st h
    exact ih _ (findStep_inv samples smoothed opts i st h)

/-- C8: the emitted speed-event sequence strictly alternates between peaks
and valleys, and the in-place replacement path never changes the event-list
length. -/
theorem findSpeedEvents_alternation (samples : List GpsSample)
    (opts : SpeedEventOptions) :
    List.Chain' (fun a b => a.type ≠ b.type) (findSpeedEvents samples opts) ∧
    ∀ (revEvents : List SpeedEvent) (newEvent : SpeedEvent)
      (ty : ExtremumType) (sp : ℚ),
      ((replaceIfMoreExtreme revEvents newEvent ty sp).1).length =
        revEvents.length := by
  refine ⟨?_, replaceIfMoreExtreme_length⟩
  unfold findSpeedEvents
  split
  · exact List.chain'_nil
  · dsimp only
    have hinv := findLoop_inv samples (smoothSpeeds samples opts.smoothingWindow)
      opts (List.range' 1 ((smoothSpeeds samples opts.smoothingWindow).length - 1))
      { lastExtremumType := none, lastExtremumSpeed := 0
      , lastExtremumTime := none, lastDerivSign := DerivSign.zero
      , revEvents := [] } ⟨List.chain'_nil, by intro e he; cases he⟩
    rw [List.chain'_reverse]
    exact hinv.1.imp fun a b hab => fun hc => hab hc.symm

/-- C3 (counterexample): a candidate 20 m from the previous sample with
Δt = 0.04 s is NOT rejected by the UBX decoder's teleportation filter,
because the filter compares the distance (20 m), not the implied speed
(500 m/s), against the `max(50·(Δt/0.04), 100)` meter threshold. -/
theorem ubxTeleport_20m_cx : ubxTeleportRejects 0.04 20 = false := by
  with_unfolding_all rfl

/-- C3 (amended): at a 20 m / 0.04 s jump the AiM filter (implied speed
500 > 100 m/s) rejects, while the distance-threshold filters of the UBX,
VBO and Alfano decoders accept (20 m is under the 100 m floor); the NMEA
decoder has no teleportation filter at all. -/
theorem teleport_20m_per_decoder :
    aimTeleportRejects 0.04 20 = true ∧
    ubxTeleportRejects 0.04 20 = false ∧
    vboTeleportRejects 0.04 20 = false ∧
    alfanoTeleportRejects 0.04 20 = false :=
  ⟨by with_unfolding_all rfl, by with_unfolding_all rfl,
   by with_unfolding_all rfl, by with_unfolding_all rfl⟩

/-- C7: in the UBX scan-loop body, a sync'd, size-valid frame with a
checksum mismatch advances the scan position by exactly one byte and emits
nothing (resynchronization); and whenever the step advances by anything
other than one byte, the frame's Fletcher checksum matched its trailing
bytes and the whole frame was consumed. -/
theorem ubxStep_checksum_resync (hav : ℚ → ℚ → ℚ → ℚ → ℚ)
    (data : List ℕ) (st : UbxScanState) :
    (ubxSyncAt data st.i → ubxFrameFits data st.i → ¬ubxChecksumOk data st.i →
      (ubxStep hav data st).i = st.i + 1 ∧
      (ubxStep hav data st).samples = st.samples) ∧
    ((ubxStep hav data st).i ≠ st.i + 1 →
      ubxSyncAt data st.i ∧ ubxFrameFits data st.i ∧ ubxChecksumOk data st.i ∧
      (ubxStep hav data st).i = st.i + 6 + ubxFrameLen data st.i + 2) := by
  unfold ubxStep ubxSyncAt ubxFrameFits ubxChecksumOk ubxFrameLen
  dsimp only
  constructor
  · intro hsync hfits hck
    rw [if_neg (not_not_intro hsync), if_neg (not_lt.mpr hfits), if_pos hck]
    exact ⟨rfl, rfl⟩
  · intro hne
    by_cases h1 : data.getD st.i 0 = 0xB5 ∧ data.getD (st.i + 1) 0 = 0x62
    · rw [if_neg (not_not_intro h1)] at hne ⊢
      by_cases h2 : st.i + 6 + getUint16LE data (st.i + 4) + 2 > data.length
      · rw [if_pos h2] at hne
        exact absurd rfl hne
      · rw [if_neg h2] at hne ⊢
        by_cases h3 :
            (calculateChecksum data (st.i + 2) (getUint16LE data (st.i + 4) + 4)).1 =
              data.getD (st.i + 6 + getUint16LE data (st.i + 4)) 0 ∧
            (calculateChecksum data (st.i + 2) (getUint16LE data (st.i + 4) + 4)).2 =
              data.getD (st.i + 6 + getUint16LE data (st.i + 4) + 1) 0
        · rw [if_neg (not_not_intro h3)] at hne ⊢
          exact ⟨h1, not_lt.mp h2, h3, rfl⟩
        · rw [if_pos h3] at hne
          exact absurd rfl hne
    · rw [if_pos h1] at hne
      exact absurd rfl hne

/-- Witness for C7: the concrete corrupt frame `ubxBadFrame` has sync bytes
and a fitting length but a checksum mismatch, and the scan step advances by
exactly one byte without emitting a sample. -/
theorem ubxStep_checksum_resync_witness :
    ubxSyncAt ubxBadFrame 0 ∧ ubxFrameFits ubxBadFrame 0 ∧
    ¬ubxChecksumOk ubxBadFrame 0 ∧
    (ubxStep havZero ubxBadFrame { i := 0, baseTimeMs := 0, samples := [] }).i = 1 ∧
    (ubxStep havZero ubxBadFrame
      { i := 0, baseTimeMs := 0, samples := [] }).samples = [] := by
  have h := (ubxStep_checksum_resync havZero ubxBadFrame
    { i := 0, baseTimeMs := 0, samples := [] }).1
    (by decide) (by decide) (by decide)
  exact ⟨by decide, by decide, by decide, h.1, h.2⟩

set_option maxRecDepth 40000 in
theorem parseUbxFile_demo :
    parseUbxFile havZero ubxDemoFrame = Except.ok
      { samples := [{ t := 0, lat := 10, lon := 20, speedMps := 5
                    , speedMph := 11.1847, speedKph := 18 }]
      , duration := 0 } := by
  with_unfolding_all rfl

theorem ubxProcessPvt_samples (hav : ℚ → ℚ → ℚ → ℚ → ℚ) (data : List ℕ)
    (st : UbxScanState) (off : ℕ) :
    (ubxProcessPvt hav data st off).2 = st.samples ∨
    ∃ s, (ubxProcessPvt hav data st off).2 = s :: st.samples ∧
      coordOk s = true ∧ speedUnitsOk s = true := by
  unfold ubxProcessPvt
  cases hp : parseNavPvt data off with
  | none => exact Or.inl rfl
  | some pvt =>
    dsimp only
    split
    next hfix =>
      split
      next hcoord =>
        repeat' split
        all_goals
          first
            | exact Or.inl rfl
            | exact Or.inr ⟨_, rfl,
                by simp [coordOk, hcoord.1, hcoord.2.1, hcoord.2.2.1, hcoord.2.2.2],
                by simp [speedUnitsOk]⟩
      next => exact Or.inl rfl
    next => exact Or.inl rfl

theorem ubxStep_samples (hav : ℚ → ℚ → ℚ → ℚ → ℚ) (data : List ℕ)
    (st : UbxScanState) :
    (ubxStep hav data st).samples = st.samples ∨
    ∃ s, (ubxStep hav data st).samples = s :: st.samples ∧
      coordOk s = true ∧ speedUnitsOk s = true := by
  unfold ubxStep
  dsimp only
  split
  · exact Or.inl rfl
  · split
    · exact Or.inl rfl
    · split
      · exact Or.inl rfl
      · split
        · exact ubxProcessPvt_samples hav data st _
        · exact Or.inl rfl

theorem ubxLoop_samples_ok (hav : ℚ → ℚ → ℚ → ℚ → ℚ) (data : List ℕ) :
    ∀ (fuel : ℕ) (st : UbxScanState),
      st.samples.all (fun s => coordOk s && speedUnitsOk s) = true →
      (ubxLoop hav data fuel st).samples.all
        (fun s => coordOk s && speedUnitsOk s) = true := by
  intro fuel
  induction fuel with
  | zero => intro st h; exact h
  | succ n ih =>
    intro st h
    unfold ubxLoop
    split
    · apply ih
      rcases ubxStep_samples hav data st with heq | ⟨s, heq, hc, hsp⟩
      · rw [heq]; exact h
      · rw [heq, List.all_cons, hc, hsp, h]
        rfl
    · exact h

theorem ubx_samples_ok (hav : ℚ → ℚ → ℚ → ℚ → ℚ) (data : List ℕ) :
    (parsedSamples (parseUbxFile hav data)).all
      (fun s => coordOk s && speedUnitsOk s) = true := by
  unfold parseUbxFile
  dsimp only
  split
  · rfl
  · unfold parsedSamples
    dsimp only
    rw [List.all_eq_true]
    intro x hx
    have hall := ubxLoop_samples_ok hav data (data.length + 1)
      { i := 0, baseTimeMs := 0, samples := [] } rfl
    have hx2 := (List.mergeSort_perm _ _).mem_iff.mp hx
    rw [List.mem_reverse] at hx2
    exact List.all_eq_true.mp hall x hx2

/-- C2 (counterexample): the NMEA decoder performs no coordinate-range or
(0,0) check: an RMC sentence with status `A` but empty coordinate fields is
accepted and yields a sample with `lat = lon = 0`. -/
theorem parseDatalog_zero_coords_cx :
    (Nmea.parsedSamplesN (Nmea.parseDatalog havZero nmeaZeroContent)).map
        (fun s => (s.lat, s.lon)) = [(some 0, some 0)] ∧
    (Nmea.parsedSamplesN (Nmea.parseDatalog havZero nmeaZeroContent)).all
        Nmea.coordOkN = false :=
  ⟨by with_unfolding_all rfl, by with_unfolding_all rfl⟩

theorem datalogStep_samples (hav : ℚ → ℚ → ℚ → ℚ → ℚ)
    (st : Nmea.ScanState) (l : String) :
    (Nmea.datalogStep hav st l).samples = st.samples ∨
    ∃ s, (Nmea.datalogStep hav st l).samples = s :: st.samples ∧
      Nmea.speedUnitsOkN s = true := by
  unfold Nmea.datalogStep
  dsimp only
  repeat' split
  all_goals
    first
      | exact Or.inl rfl
      | exact Or.inr ⟨_, rfl, by simp [Nmea.speedUnitsOkN]⟩

theorem datalogFold_samples_ok (hav : ℚ → ℚ → ℚ → ℚ → ℚ) :
    ∀ (ls : List String) (st : Nmea.ScanState),
      st.samples.all Nmea.speedUnitsOkN = true →
      ((ls.foldl (Nmea.datalogStep hav) st).samples).all
        Nmea.speedUnitsOkN = true := by
  intro ls
  induction ls with
  | nil => intro st h; exact h
  | cons l rest ih =>
    intro st h
    rw [List.foldl_cons]
    apply ih
    rcases datalogStep_samples hav st l with heq | ⟨s, heq, hs⟩
    · rw [heq]; exact h
    · rw [heq, List.all_cons, hs, h]
      rfl

theorem nmea_speed_units_ok (hav : ℚ → ℚ → ℚ → ℚ → ℚ) (content : String) :
    (Nmea.parsedSamplesN (Nmea.parseDatalog hav content)).all
      Nmea.speedUnitsOkN = true := by
  unfold Nmea.parseDatalog
  dsimp only
  split
  · rfl
  · split <;> split
    all_goals
      first
        | rfl
        | (unfold Nmea.parsedSamplesN
           dsimp only
           rw [List.all_eq_true]
           intro x hx
           rw [List.mem_reverse] at hx
           exact List.all_eq_true.mp (datalogFold_samples_ok hav _
             { samples := [], baseTimeMs := some 0, lastTimeMs := some 0
             , dayOffset := 0 } rfl) x hx)

theorem vboStep_samples (hav : ℚ → ℚ → ℚ → ℚ → ℚ)
    (st : Vbo.ScanState) (l : String) :
    (Vbo.vboStep hav st l).samples = st.samples ∨
    ∃ s, (Vbo.vboStep hav st l).samples = s :: st.samples ∧
      Vbo.coordOkV s = true ∧ Vbo.speedUnitsOkV s = true := by
  unfold Vbo.vboStep
  dsimp only
  split
  · exact Or.inl rfl
  · split
    · exact Or.inl rfl
    · split
      · exact Or.inl rfl
      · split
        next hc => exact Or.inl rfl
        next hc =>
          push_neg at hc
          repeat' split
          all_goals
            first
              | exact Or.inl rfl
              | exact Or.inr ⟨_, rfl,
                  by
                    simp only [Vbo.coordOkV, Bool.and_eq_true, decide_eq_true_eq]
                    exact ⟨⟨⟨hc.2.2.1, hc.2.2.2⟩, hc.1⟩, hc.2.1⟩,
                  by
                    simp only [Vbo.speedUnitsOkV, Bool.and_eq_true, decide_eq_true_eq]
                    refine ⟨?_, by trivial⟩
                    rw [div_mul_cancel₀ _ (by norm_num : (3.6 : ℚ) ≠ 0)]⟩

theorem vboFold_samples_ok (hav : ℚ → ℚ → ℚ → ℚ → ℚ) :
    ∀ (ls : List String) (st : Vbo.ScanState),
      st.samples.all (fun s => Vbo.coordOkV s && Vbo.speedUnitsOkV s) = true →
      ((ls.foldl (Vbo.vboStep hav) st).samples).all
        (fun s => Vbo.coordOkV s && Vbo.speedUnitsOkV s) = true := by
  intro ls
  induction ls with
  | nil => intro st h; exact h
  | cons l rest ih =>
    intro st h
    rw [List.foldl_cons]
    apply ih
    rcases vboStep_samples hav st l with heq | ⟨s, heq, hc, hs⟩
    · rw [heq]; exact h
    · rw [heq, List.all_cons, hc, hs, h]
      rfl

theorem vbo_samples_ok (hav : ℚ → ℚ → ℚ → ℚ → ℚ) (content : String) :
    (Vbo.parsedSamplesV (Vbo.parseVboFile hav content)).all
      (fun s => Vbo.coordOkV s && Vbo.speedUnitsOkV s) = true := by
  unfold Vbo.parseVboFile
  dsimp only
  split
  · rfl
  · split
    · rfl
    · unfold Vbo.parsedSamplesV
      dsimp only
      rw [List.all_eq_true]
      intro x hx
      rw [List.mem_reverse] at hx
      exact List.all_eq_true.mp (vboFold_samples_ok hav _
        { columnMap := _, samples := [], baseTimeMs := none } rfl) x hx

theorem alfanoAccept_samples (hav : ℚ → ℚ → ℚ → ℚ → ℚ)
    (cm : List (String × ℕ)) (st : Alfano.ScanState) (fields : List String)
    (lat lon : ℚ) :
    (Alfano.alfanoAccept hav cm st fields lat lon).samples = st.samples ∨
    ∃ s, (Alfano.alfanoAccept hav cm st fields lat lon).samples =
        s :: st.samples ∧
      s.lat = lat ∧ s.lon = lon ∧ speedUnitsOk s = true := by
  unfold Alfano.alfanoAccept
  dsimp only
  split
  · exact Or.inl rfl
  · split
    · exact Or.inl rfl
    · exact Or.inr ⟨_, rfl, rfl, rfl,
        by
          simp only [speedUnitsOk, Bool.and_eq_true, decide_eq_true_eq]
          refine ⟨?_, by trivial⟩
          rw [div_mul_cancel₀ _ (by norm_num : (3.6 : ℚ) ≠ 0)]⟩

theorem alfanoStep_samples (hav : ℚ → ℚ → ℚ → ℚ → ℚ)
    (cm : List (String × ℕ)) (st : Alfano.ScanState) (l : String) :
    (Alfano.alfanoStep hav cm st l).samples = st.samples ∨
    ∃ s, (Alfano.alfanoStep hav cm st l).samples = s :: st.samples ∧
      coordOk s = true ∧ speedUnitsOk s = true := by
  unfold Alfano.alfanoStep
  split
  · exact Or.inl rfl
  · split
    · exact Or.inl rfl
    · split
      · exact Or.inl rfl
      · split
        next heqa heqb =>
          rename_i lat lon
          split
          next h0 => exact Or.inl rfl
          next h0 =>
            split
            next hr => exact Or.inl rfl
            next hr =>
              push_neg at h0 hr
              rcases alfanoAccept_samples hav cm st
                  (Alfano.parseCSVLine l.trim) lat lon with
                heq | ⟨s, heq, hlat, hlon, hs⟩
              · exact Or.inl heq
              · refine Or.inr ⟨s, heq, ?_, hs⟩
                simp only [coordOk, Bool.and_eq_true, decide_eq_true_eq,
                  hlat, hlon]
                exact ⟨⟨⟨hr.1, hr.2⟩, h0.1⟩, h0.2⟩
        next => exact Or.inl rfl

theorem alfanoFold_samples_ok (hav : ℚ → ℚ → ℚ → ℚ → ℚ)
    (cm : List (String × ℕ)) :
    ∀ (ls : List String) (st : Alfano.ScanState),
      st.samples.all (fun s => coordOk s && speedUnitsOk s) = true →
      ((ls.foldl (Alfano.alfanoStep hav cm) st).samples).all
        (fun s => coordOk s && speedUnitsOk s) = true := by
  intro ls
  induction ls with
  | nil => intro st h; exact h
  | cons l rest ih =>
    intro st h
    rw [List.foldl_cons]
    apply ih
    rcases alfanoStep_samples hav cm st l with heq | ⟨s, heq, hc, hs⟩
    · rw [heq]; exact h
    · rw [heq, List.all_cons, hc, hs, h]
      rfl

theorem alfano_samples_ok (hav : ℚ → ℚ → ℚ → ℚ → ℚ) (content : String) :
    (parsedSamples (Alfano.parseAlfanoFile hav content)).all
      (fun s => coordOk s && speedUnitsOk s) = true := by
  unfold Alfano.parseAlfanoFile
  dsimp only
  split
  · rfl
  · split
    · rfl
    · unfold parsedSamples
      dsimp only
      rw [List.all_eq_true]
      intro x hx
      rw [List.mem_reverse] at hx
      exact List.all_eq_true.mp (alfanoFold_samples_ok hav _ _
        { samples := [], baseTimeMs := none } rfl) x hx

theorem aimAccept_samples (hav : ℚ → ℚ → ℚ → ℚ → ℚ) (cols : Aim.Cols)
    (st : Aim.ScanState) (values : List String) (lat lon : ℚ) :
    (Aim.aimAccept hav cols st values lat lon).samples = st.samples ∨
    ∃ s, (Aim.aimAccept hav cols st values lat lon).samples =
        s :: st.samples ∧
      s.lat = lat ∧ s.lon = lon ∧ speedUnitsOk s = true := by
  unfold Aim.aimAccept
  dsimp only
  split
  · exact Or.inl rfl
  · exact Or.inr ⟨_, rfl, rfl, rfl,
      by
        simp only [speedUnitsOk, Bool.and_eq_true, decide_eq_true_eq]
        exact ⟨by trivial, by trivial⟩⟩

theorem aimStep_samples (hav : ℚ → ℚ → ℚ → ℚ → ℚ) (cols : Aim.Cols)
    (delim : Char) (st : Aim.ScanState) (line : String) :
    (Aim.aimStep hav cols delim st line).samples = st.samples ∨
    ∃ s, (Aim.aimStep hav cols delim st line).samples = s :: st.samples ∧
      coordOk s = true ∧ speedUnitsOk s = true := by
  unfold Aim.aimStep
  split
  · exact Or.inl rfl
  · split
    next heqa heqb =>
      rename_i lat lon
      split
      next h0 => exact Or.inl rfl
      next h0 =>
        split
        next hr => exact Or.inl rfl
        next hr =>
          push_neg at h0 hr
          rcases aimAccept_samples hav cols st
              (Aim.parseCSVLine delim line) lat lon with
            heq | ⟨s, heq, hlat, hlon, hs⟩
          · exact Or.inl heq
          · refine Or.inr ⟨s, heq, ?_, hs⟩
            simp only [coordOk, Bool.and_eq_true, decide_eq_true_eq,
              hlat, hlon]
            exact ⟨⟨⟨abs_le.mpr ⟨hr.1, hr.2.1⟩,
              abs_le.mpr ⟨hr.2.2.1, hr.2.2.2⟩⟩, h0.1⟩, h0.2⟩
    next => exact Or.inl rfl

theorem aimFold_samples_ok (hav : ℚ → ℚ → ℚ → ℚ → ℚ) (cols : Aim.Cols)
    (delim : Char) :
    ∀ (ls : List String) (st : Aim.ScanState),
      st.samples.all (fun s => coordOk s && speedUnitsOk s) = true →
      ((ls.foldl (Aim.aimStep hav cols delim) st).samples).all
        (fun s => coordOk s && speedUnitsOk s) = true := by
  intro ls
  induction ls with
  | nil => intro st h; exact h
  | cons l rest ih =>
    intro st h
    rw [List.foldl_cons]
    apply ih
    rcases aimStep_samples hav cols delim st l with heq | ⟨s, heq, hc, hs⟩
    · rw [heq]; exact h
    · rw [heq, List.all_cons, hc, hs, h]
      rfl

theorem aim_samples_ok (hav : ℚ → ℚ → ℚ → ℚ → ℚ) (content : String) :
    (parsedSamples (Aim.parseAimFile hav content)).all
      (fun s => coordOk s && speedUnitsOk s) = true := by
  unfold Aim.parseAimFile
  dsimp only
  split
  · rfl
  · split
    · rfl
    · split
      · split
        · rfl
        · unfold parsedSamples
          dsimp only
          rw [List.all_eq_true]
          intro x hx
          rw [List.mem_reverse] at hx
          exact List.all_eq_true.mp (aimFold_samples_ok hav _ _ _
            { samples := [], baseTime := none, timeMultiplier := 1000
            , speedMultiplier := 1 / 3.6 } rfl) x hx
      · rfl

theorem all_and_left {α : Type} (p q : α → Bool) (l : List α)
    (h : l.all (fun s => p s && q s) = true) : l.all p = true := by
  rw [List.all_eq_true] at h ⊢
  intro x hx
  have hx2 := h x hx
  rw [Bool.and_eq_true] at hx2
  exact hx2.1

theorem all_and_right {α : Type} (p q : α → Bool) (l : List α)
    (h : l.all (fun s => p s && q s) = true) : l.all q = true := by
  rw [List.all_eq_true] at h ⊢
  intro x hx
  have hx2 := h x hx
  rw [Bool.and_eq_true] at hx2
  exact hx2.2

/-- C2 (amended): the UBX, VBO, Alfano and AiM decoders emit only samples
with `|lat| ≤ 90`, `|lon| ≤ 180`, `lat ≠ 0` and `lon ≠ 0`, for every input;
the NMEA decoder performs no such check (see the counterexample) and is
excluded. -/
theorem coord_invariant_four_decoders (hav : ℚ → ℚ → ℚ → ℚ → ℚ)
    (data : List ℕ) (content : String) :
    (parsedSamples (parseUbxFile hav data)).all coordOk = true ∧
    (Vbo.parsedSamplesV (Vbo.parseVboFile hav content)).all
      Vbo.coordOkV = true ∧
    (parsedSamples (Alfano.parseAlfanoFile hav content)).all
      coordOk = true ∧
    (parsedSamples (Aim.parseAimFile hav content)).all coordOk = true :=
  ⟨all_and_left _ _ _ (ubx_samples_ok hav data),
   all_and_left _ _ _ (vbo_samples_ok hav content),
   all_and_left _ _ _ (alfano_samples_ok hav content),
   all_and_left _ _ _ (aim_samples_ok hav content)⟩

/-- C6: every sample emitted by any of the five decoders satisfies the
cached-unit law `speedKph = speedMps · 3.6` and
`speedMph = speedMps · 2.23694`, exactly in rational arithmetic. -/
theorem speed_units_all_decoders (hav : ℚ → ℚ → ℚ → ℚ → ℚ)
    (data : List ℕ) (content : String) :
    (parsedSamples (parseUbxFile hav data)).all speedUnitsOk = true ∧
    (Nmea.parsedSamplesN (Nmea.parseDatalog hav content)).all
      Nmea.speedUnitsOkN = true ∧
    (Vbo.parsedSamplesV (Vbo.parseVboFile hav content)).all
      Vbo.speedUnitsOkV = true ∧
    (parsedSamples (Alfano.parseAlfanoFile hav content)).all
      speedUnitsOk = true ∧
    (parsedSamples (Aim.parseAimFile hav content)).all
      speedUnitsOk = true :=
  ⟨all_and_right _ _ _ (ubx_samples_ok hav data),
   nmea_speed_units_ok hav content,
   all_and_right _ _ _ (vbo_samples_ok hav content),
   all_and_right _ _ _ (alfano_samples_ok hav content),
   all_and_right _ _ _ (aim_samples_ok hav content)⟩
